import Mathlib

/-!
# Verification of the IMX477 sensor-driver control core

Shallow embedding of `drivers/media/i2c/arducam-imx477p.c` (OpenHD/linux-rock):
the mode catalog, the timing engine, the control-to-register mapper, and the
streaming/power state machine, together with theorems settling the frozen
claims about the driver.

Machine integers are modelled as `Nat`/`Int` with explicit wrap-around
(`% 2^32`, two's-complement reinterpretation) exactly where the C types make
overflow observable.  Register I/O is modelled by explicit state passing plus a
bus oracle deciding the success of each i2c transfer; every function returns
the C `int` result code together with the updated state and the list of wire
messages actually sent.
-/

/- ## Constants from the source header block -/

def IMX477_REG_VALUE_08BIT : Nat := 1
def IMX477_REG_VALUE_16BIT : Nat := 2

def IMX477_REG_MODE_SELECT : Nat := 0x0100
def IMX477_MODE_STANDBY : Nat := 0x00
def IMX477_MODE_STREAMING : Nat := 0x01

def IMX477_REG_ORIENTATION : Nat := 0x101

def IMX477_PIXEL_RATE : Nat := 614400000

def IMX477_REG_FRAME_LENGTH : Nat := 0x0340
def IMX477_FRAME_LENGTH_MAX : Nat := 0xffdc

def IMX477_REG_LINE_LENGTH : Nat := 0x0342
def IMX477_LINE_LENGTH_MAX : Nat := 0xfff0

def IMX477_LONG_EXP_SHIFT_MAX : Nat := 7
def IMX477_LONG_EXP_SHIFT_REG : Nat := 0x3100

def IMX477_REG_EXPOSURE : Nat := 0x0202
def IMX477_EXPOSURE_OFFSET : Nat := 22
def IMX477_EXPOSURE_MIN : Nat := 4
def IMX477_EXPOSURE_STEP : Nat := 1
def IMX477_EXPOSURE_DEFAULT : Nat := 0x640
def IMX477_EXPOSURE_MAX : Nat := IMX477_FRAME_LENGTH_MAX - IMX477_EXPOSURE_OFFSET

def IMX477_REG_ANALOG_GAIN : Nat := 0x0204
def IMX477_ANA_GAIN_MIN : Nat := 0
def IMX477_ANA_GAIN_MAX : Nat := 978
def IMX477_ANA_GAIN_DEFAULT : Nat := 0

def IMX477_REG_DIGITAL_GAIN : Nat := 0x020e
def IMX477_DGTL_GAIN_MIN : Nat := 0x0100
def IMX477_DGTL_GAIN_MAX : Nat := 0xffff
def IMX477_DGTL_GAIN_DEFAULT : Nat := 0x0100

def IMX477_REG_TEST_PATTERN : Nat := 0x0600
def IMX477_REG_TEST_PATTERN_R : Nat := 0x0602
def IMX477_REG_TEST_PATTERN_GR : Nat := 0x0604
def IMX477_REG_TEST_PATTERN_B : Nat := 0x0606
def IMX477_REG_TEST_PATTERN_GB : Nat := 0x0608
def IMX477_TEST_PATTERN_COLOUR_MAX : Nat := 0x0fff

/-- `MEDIA_BUS_FMT_SRGGB10_1X10` media-bus code used by every catalog mode. -/
def MEDIA_BUS_FMT_SRGGB10_1X10 : Nat := 0x300f

/-- C error codes used by the driver (returned negated, as in the kernel):
`EINVAL`, `EIO`, `EBUSY`. -/
def cEINVAL : Int := 22
def eioCode : Int := 5
def cEBUSY : Int := 16

/-- `imx477_test_pattern_val`: enum-to-register indirection table. -/
def imx477_test_pattern_val : List Nat := [0, 2, 1, 3, 4]

/- ## Mode catalog -/

/-- `struct v4l2_fract`: a frame interval as numerator/denominator. -/
structure V4l2Fract where
  numerator : Nat
  denominator : Nat
deriving DecidableEq, Repr

/-- `struct imx477_mode`: resolution plus derived-timing configuration.  The
register program is carried inline (the C `reg_list` points to a static
table). -/
structure Imx477Mode where
  bus_fmt : Nat
  width : Nat
  height : Nat
  line_length_pix : Nat
  max_fps : V4l2Fract
  timeperframe_default : V4l2Fract
  reg_list : List (Nat × Nat)
deriving DecidableEq, Repr
/-- Register table `mode_common_regs` from the source (address, value pairs). -/
def mode_common_regs : List (Nat × Nat) := [
  (0x0103, 0x01),(0x0136, 0x18),(0x0137, 0x00),(0x38A8, 0x1F),(0x38A9, 0xFF),(0x38AA, 0x1F),(0x38AB, 
  0xFF),(0x55D4, 0x00),(0x55D5, 0x00),(0x55D6, 0x07),(0x55D7, 0xFF),(0x55E8, 0x07),(0x55E9, 
  0xFF),(0x55EA, 0x00),(0x55EB, 0x00),(0x575C, 0x07),(0x575D, 0xFF),(0x575E, 0x00),(0x575F, 
  0x00),(0x5764, 0x00),(0x5765, 0x00),(0x5766, 0x07),(0x5767, 0xFF),(0x5974, 0x04),(0x5975, 
  0x01),(0x5F10, 0x09),(0x5F11, 0x92),(0x5F12, 0x32),(0x5F13, 0x72),(0x5F14, 0x16),(0x5F15, 
  0xBA),(0x5F17, 0x13),(0x5F18, 0x24),(0x5F19, 0x60),(0x5F1A, 0xE3),(0x5F1B, 0xAD),(0x5F1C, 
  0x74),(0x5F2D, 0x25),(0x5F5C, 0xD0),(0x6A22, 0x00),(0x6A23, 0x1D),(0x7BA8, 0x00),(0x7BA9, 
  0x00),(0x886B, 0x00),(0x9002, 0x0A),(0x9004, 0x1A),(0x9214, 0x93),(0x9215, 0x69),(0x9216, 
  0x93),(0x9217, 0x6B),(0x9218, 0x93),(0x9219, 0x6D),(0x921A, 0x57),(0x921B, 0x58),(0x921C, 
  0x57),(0x921D, 0x59),(0x921E, 0x57),(0x921F, 0x5A),(0x9220, 0x57),(0x9221, 0x5B),(0x9222, 
  0x93),(0x9223, 0x02),(0x9224, 0x93),(0x9225, 0x03),(0x9226, 0x93),(0x9227, 0x04),(0x9228, 
  0x93),(0x9229, 0x05),(0x922A, 0x98),(0x922B, 0x21),(0x922C, 0xB2),(0x922D, 0xDB),(0x922E, 
  0xB2),(0x922F, 0xDC),(0x9230, 0xB2),(0x9231, 0xDD),(0x9232, 0xB2),(0x9233, 0xE1),(0x9234, 
  0xB2),(0x9235, 0xE2),(0x9236, 0xB2),(0x9237, 0xE3),(0x9238, 0xB7),(0x9239, 0xB9),(0x923A, 
  0xB7),(0x923B, 0xBB),(0x923C, 0xB7),(0x923D, 0xBC),(0x923E, 0xB7),(0x923F, 0xC5),(0x9240, 
  0xB7),(0x9241, 0xC7),(0x9242, 0xB7),(0x9243, 0xC9),(0x9244, 0x98),(0x9245, 0x56),(0x9246, 
  0x98),(0x9247, 0x55),(0x9380, 0x00),(0x9381, 0x62),(0x9382, 0x00),(0x9383, 0x56),(0x9384, 
  0x00),(0x9385, 0x52),(0x9388, 0x00),(0x9389, 0x55),(0x938A, 0x00),(0x938B, 0x55),(0x938C, 
  0x00),(0x938D, 0x41),(0x5078, 0x01),(0x0112, 0x0A),(0x0113, 0x0A),(0x0114, 0x01)
]

/-- Register table `mode_4056x3040_regs` from the source (address, value pairs). -/
def mode_4056x3040_regs : List (Nat × Nat) := [
  (0x0342, 0x49),(0x0343, 0xa8),(0x0350, 0x00),(0x0340, 0x0C),(0x0341, 0x1E),(0x3210, 0x00),(0x0344, 
  0x00),(0x0345, 0x00),(0x0346, 0x00),(0x0347, 0x00),(0x0348, 0x0F),(0x0349, 0xD7),(0x034A, 
  0x0B),(0x034B, 0xDF),(0x0220, 0x00),(0x0221, 0x11),(0x0381, 0x01),(0x0383, 0x01),(0x0385, 
  0x01),(0x0387, 0x01),(0x0900, 0x00),(0x0901, 0x11),(0x0902, 0x00),(0x3140, 0x02),(0x0401, 
  0x00),(0x0404, 0x00),(0x0405, 0x10),(0x0408, 0x00),(0x0409, 0x00),(0x040A, 0x00),(0x040B, 
  0x00),(0x040C, 0x0F),(0x040D, 0xD8),(0x040E, 0x0B),(0x040F, 0xE0),(0x034C, 0x0F),(0x034D, 
  0xD8),(0x034E, 0x0B),(0x034F, 0xE0),(0x0301, 0x05),(0x0303, 0x02),(0x0305, 0x04),(0x0306, 
  0x01),(0x0307, 0x00),(0x0309, 0x08),(0x030b, 0x02),(0x030d, 0x02),(0x030e, 0x00),(0x030f, 
  0x98),(0x0310, 0x01),(0x0820, 0x20),(0x0821, 0xD0),(0x0822, 0x00),(0x0823, 0x00),(0x3E20, 
  0x01),(0x3E37, 0x00),(0x3F50, 0x00),(0x3F56, 0x00),(0x3F57, 0x82),(0x0202, 0x0C),(0x0203, 
  0x08),(0x0204, 0x00),(0x0205, 0x00),(0x020E, 0x01),(0x020F, 0x00),(0x0210, 0x01),(0x0211, 
  0x00),(0x0212, 0x01),(0x0213, 0x00),(0x0214, 0x01),(0x0215, 0x00),(0x0100, 0x01)
]

/-- Register table `mode_3840x2160_regs` from the source (address, value pairs). -/
def mode_3840x2160_regs : List (Nat × Nat) := [
  (0x0342, 0x34),(0x0343, 0x80),(0x0350, 0x00),(0x0340, 0x08),(0x0341, 0xED),(0x3210, 0x00),(0x0344, 
  0x00),(0x0345, 0x6C),(0x0346, 0x01),(0x0347, 0xB8),(0x0348, 0x0F),(0x0349, 0x6B),(0x034A, 
  0x0A),(0x034B, 0x27),(0x0220, 0x00),(0x0221, 0x11),(0x0381, 0x01),(0x0383, 0x01),(0x0385, 
  0x01),(0x0387, 0x01),(0x0900, 0x00),(0x0901, 0x11),(0x0902, 0x00),(0x3140, 0x02),(0x0401, 
  0x00),(0x0404, 0x00),(0x0405, 0x10),(0x0408, 0x00),(0x0409, 0x00),(0x040A, 0x00),(0x040B, 
  0x00),(0x040C, 0x0F),(0x040D, 0x00),(0x040E, 0x08),(0x040F, 0x70),(0x034C, 0x0F),(0x034D, 
  0x00),(0x034E, 0x08),(0x034F, 0x70),(0x0301, 0x05),(0x0303, 0x02),(0x0305, 0x04),(0x0306, 
  0x01),(0x0307, 0x00),(0x0309, 0x08),(0x030b, 0x02),(0x030d, 0x02),(0x030e, 0x00),(0x030f, 
  0x98),(0x0310, 0x01),(0x0820, 0x20),(0x0821, 0xD0),(0x0822, 0x00),(0x0823, 0x00),(0x3E20, 
  0x01),(0x3E37, 0x00),(0x3F50, 0x00),(0x3F56, 0x00),(0x3F57, 0x82),(0x0202, 0x08),(0x0203, 
  0xEC),(0x0204, 0x00),(0x0205, 0x00),(0x020E, 0x01),(0x020F, 0x00),(0x0210, 0x01),(0x0211, 
  0x00),(0x0212, 0x01),(0x0213, 0x00),(0x0214, 0x01),(0x0215, 0x00),(0x0100, 0x01)
]

/-- Register table `mode_1920x1080_regs` from the source (address, value pairs). -/
def mode_1920x1080_regs : List (Nat × Nat) := [
  (0x0342, 0x20),(0x0343, 0x70),(0x0350, 0x00),(0x0340, 0x04),(0x0341, 0xD0),(0x3210, 0x00),(0x0344, 
  0x00),(0x0345, 0x60),(0x0346, 0x01),(0x0347, 0xB8),(0x0348, 0x0F),(0x0349, 0xCB),(0x034A, 
  0x0B),(0x034B, 0xDF),(0x00E3, 0x00),(0x00E4, 0x00),(0x00E5, 0x01),(0x00FC, 0x0A),(0x00FD, 
  0x0A),(0x00FE, 0x0A),(0x00FF, 0x0A),(0xE013, 0x00),(0x0220, 0x00),(0x0221, 0x11),(0x0381, 
  0x01),(0x0383, 0x01),(0x0385, 0x01),(0x0387, 0x01),(0x0900, 0x01),(0x0901, 0x22),(0x0902, 
  0x02),(0x3140, 0x02),(0x3241, 0x11),(0x3250, 0x03),(0x3E10, 0x00),(0x3E11, 0x00),(0x3F0D, 
  0x00),(0x3F42, 0x00),(0x3F43, 0x00),(0x0401, 0x00),(0x0404, 0x00),(0x0405, 0x10),(0x0408, 
  0x00),(0x0409, 0x00),(0x040A, 0x00),(0x040B, 0x00),(0x040C, 0x07),(0x040D, 0x80),(0x040E, 
  0x04),(0x040F, 0x38),(0x034C, 0x07),(0x034D, 0x80),(0x034E, 0x04),(0x034F, 0x38),(0x0301, 
  0x05),(0x0303, 0x02),(0x0305, 0x04),(0x0306, 0x01),(0x0307, 0x00),(0x0309, 0x08),(0x030b, 
  0x02),(0x030d, 0x02),(0x030e, 0x00),(0x030f, 0x98),(0x0310, 0x01),(0x0820, 0x20),(0x0821, 
  0xD0),(0x0822, 0x00),(0x0823, 0x00),(0x3E20, 0x01),(0x3E37, 0x00)
]

/-- Catalog entry 0: the 12MPix 10fps full-resolution mode. -/
def supported_mode_4056x3040 : Imx477Mode :=
  { bus_fmt := MEDIA_BUS_FMT_SRGGB10_1X10
    width := 4056, height := 3040, line_length_pix := 0x49a8
    max_fps := ⟨100, 1000⟩, timeperframe_default := ⟨100, 1000⟩
    reg_list := mode_4056x3040_regs }

/-- Catalog entry 1: the 4K 20fps mode. -/
def supported_mode_3840x2160 : Imx477Mode :=
  { bus_fmt := MEDIA_BUS_FMT_SRGGB10_1X10
    width := 3840, height := 2160, line_length_pix := 0x3480
    max_fps := ⟨100, 2000⟩, timeperframe_default := ⟨100, 2000⟩
    reg_list := mode_3840x2160_regs }

/-- Catalog entry 2: the 1080p 50fps cropped mode. -/
def supported_mode_1920x1080 : Imx477Mode :=
  { bus_fmt := MEDIA_BUS_FMT_SRGGB10_1X10
    width := 1920, height := 1080, line_length_pix := 0x2070
    max_fps := ⟨100, 6000⟩, timeperframe_default := ⟨100, 6000⟩
    reg_list := mode_1920x1080_regs }

/-- The fixed catalog `supported_modes` (three entries, all `SRGGB10`). -/
def supported_modes : List Imx477Mode :=
  [supported_mode_4056x3040, supported_mode_3840x2160, supported_mode_1920x1080]

/-- `extra_regs` of `imx477_compatible`: empty for this chip variant. -/
def imx477_compatible_extra_regs : List (Nat × Nat) := []

/- ## Timing engine -/

/-- `imx477_get_frame_length`: 64-bit product, then `do_div`.  The kernel's
`do_div(n, base)` takes its divisor as a `u32`, so the 64-bit product
`(u64)denominator * line_length_pix` is truncated modulo `2^32` before the
division.  The quotient is capped at `IMX477_FRAME_LENGTH_MAX` (the C
`WARN_ON` only warns) and then raised to at least `mode->height` (`max_t`).
The dividend fits in `u64` (numerator is `u32`, pixel rate below `2^30`); a
divisor that is an exact multiple of `2^32` would be a division by zero
(undefined in C), for which Lean's `x / 0 = 0` convention stands in. -/
def imx477_get_frame_length (mode : Imx477Mode) (timeperframe : V4l2Fract) : Nat :=
  let frame_length := timeperframe.numerator * IMX477_PIXEL_RATE /
      (timeperframe.denominator * mode.line_length_pix % 2 ^ 32)
  let frame_length :=
    if IMX477_FRAME_LENGTH_MAX < frame_length then IMX477_FRAME_LENGTH_MAX
    else frame_length
  max frame_length mode.height

/- ## Mode negotiation -/

/-- Two's-complement reinterpretation of an integer as a 32-bit signed value,
as the kernel's implementation-defined `unsigned` → `signed int` conversion
(and its `-fno-strict-overflow` wrapping arithmetic) produces. -/
def toInt32 (n : Int) : Int := (n + 2 ^ 31) % 2 ^ 32 - 2 ^ 31

/-- C `unsigned int` subtraction: wraps modulo `2^32`. -/
def usub32 (a b : Nat) : Nat := (a % 2 ^ 32 + 2 ^ 32 - b % 2 ^ 32) % 2 ^ 32

/-- The kernel `abs()` macro applied to an `unsigned int` expression: the value
is first converted to `signed int` (two's complement), then negated if
negative; with the kernel's wrapping arithmetic `abs(INT_MIN) = INT_MIN`. -/
def kabs32 (u : Nat) : Int :=
  let x := toInt32 u
  if x < 0 then toInt32 (-x) else x

/-- `imx477_get_reso_dist`: Manhattan distance computed with C `unsigned int`
subtraction and the kernel `abs()` macro; the final `int` sum wraps. -/
def imx477_get_reso_dist (mode : Imx477Mode) (reqWidth reqHeight : Nat) : Int :=
  toInt32 (kabs32 (usub32 mode.width reqWidth) +
           kabs32 (usub32 mode.height reqHeight))

/-- The loop body of `imx477_find_best_fit`: fold over the catalog carrying
`cur_best_fit_dist` (initially `-1`) and `cur_best_fit` (initially index 0).
An entry becomes the best fit when no best exists yet or its distance is
strictly smaller, provided its `bus_fmt` equals the requested code. -/
def find_best_fit_loop (reqWidth reqHeight code : Nat) :
    List (Nat × Imx477Mode) → Int → Nat → Nat
  | [], _, curBestFit => curBestFit
  | (i, mode) :: rest, curBestFitDist, curBestFit =>
    let dist := imx477_get_reso_dist mode reqWidth reqHeight
    if (curBestFitDist = -1 ∨ dist < curBestFitDist) ∧ mode.bus_fmt = code then
      find_best_fit_loop reqWidth reqHeight code rest dist i
    else
      find_best_fit_loop reqWidth reqHeight code rest curBestFitDist curBestFit

/-- Placeholder mode used as the (never reached) `List.getD` fallback. -/
def defaultMode : Imx477Mode := ⟨0, 0, 0, 0, ⟨0, 0⟩, ⟨0, 0⟩, []⟩

/-- The index variant of `imx477_find_best_fit` (the C `cur_best_fit`):
iterate over the indexed catalog. -/
def imx477_find_best_fit_idx (code reqWidth reqHeight : Nat) : Nat :=
  find_best_fit_loop reqWidth reqHeight code supported_modes.enum (-1) 0

/-- `imx477_find_best_fit`: returns `&supported_modes[cur_best_fit]` (it can
never fail; with no format match `cur_best_fit` stays 0).  The fallback mode
of `getD` is never reached: the loop only produces valid indices. -/
def imx477_find_best_fit (code reqWidth reqHeight : Nat) : Imx477Mode :=
  supported_modes.getD (imx477_find_best_fit_idx code reqWidth reqHeight)
    defaultMode

/-- Manhattan distance in the words of the spec (exact integer absolute
values); used to compare the code's wrapped distance against the spec. -/
def specResoDist (mode : Imx477Mode) (reqWidth reqHeight : Nat) : Int :=
  |(mode.width : Int) - reqWidth| + |(mode.height : Int) - reqHeight|

/- ## Long-exposure encoding -/

/-- The `while (val > IMX477_FRAME_LENGTH_MAX) { shift++; val >>= 1; }` loop of
`imx477_set_frame_length`, returning the final `(val, shift)`.  `val` is a C
`unsigned int` (< `2^32`) so at most 32 halvings can ever happen; the `fuel`
argument makes the recursion structural and is instantiated at 32. -/
def frame_length_loop : Nat → Nat → Nat → Nat × Nat
  | 0, val, shift => (val, shift)
  | fuel + 1, val, shift =>
    if IMX477_FRAME_LENGTH_MAX < val then
      frame_length_loop fuel (val / 2) (shift + 1)
    else
      (val, shift)

/- ## Device state, transport and control mapper -/

/-- One wire message: (register address, byte width, value bytes sent). -/
abbrev Wire := Nat × Nat × Nat

/-- Success oracle for the successive i2c transfers of one scenario. -/
abbrev Bus := Nat → Bool

/-- The all-transfers-succeed bus. -/
def busOK : Bus := fun _ => true

/-- The fields of `struct v4l2_ctrl` the driver observes: bounds, step,
default, the current value, and the GRABBED flag. -/
structure V4l2Ctrl where
  minimum : Nat
  maximum : Nat
  step : Nat
  default_value : Nat
  val : Nat
  grabbed : Bool
deriving DecidableEq, Repr

/-- The mutable part of `struct imx477` the control core operates on, plus the
bus-transfer counter and a lock/pm abstraction (`pm_usage` is the runtime-PM
usage count, the kernel's signed atomic counter: the device is held powered
while it is positive, and unbalanced puts can drive it negative). -/
structure Imx477 where
  streaming : Bool
  power_on : Bool
  common_regs_written : Bool
  long_exp_shift : Nat
  cur_mode : Imx477Mode
  exposure : V4l2Ctrl
  anal_a_gain : V4l2Ctrl
  digi_gain : V4l2Ctrl
  hblank : V4l2Ctrl
  vblank : V4l2Ctrl
  hflip : V4l2Ctrl
  vflip : V4l2Ctrl
  test_pattern : V4l2Ctrl
  tp_red : V4l2Ctrl
  tp_greenr : V4l2Ctrl
  tp_blue : V4l2Ctrl
  tp_greenb : V4l2Ctrl
  pm_usage : Int
  lock_held : Bool
  bus_ops : Nat
deriving DecidableEq, Repr

/-- `imx477_write_reg`: a width above 4 is rejected with `-EINVAL` before any
bus traffic; otherwise the value is shifted to the top of a 32-bit buffer and
only the first `len` payload bytes go on the wire, i.e. the wire carries
`val % 2^(8*len)` — oversized values are silently truncated. -/
def imx477_write_reg (bus : Bus) (s : Imx477) (reg len val : Nat) :
    Int × Imx477 × List Wire :=
  if 4 < len then (-cEINVAL, s, [])
  else if bus s.bus_ops then
    (0, { s with bus_ops := s.bus_ops + 1 }, [(reg, len, val % 2 ^ (8 * len))])
  else (-eioCode, { s with bus_ops := s.bus_ops + 1 }, [])

/-- `imx477_read_reg`: same width guard before any bus traffic; the result is
the big-endian `len`-byte datum zero-extended to 32 bits (`data` supplies the
bytes the device answers on transfer `k`). -/
def imx477_read_reg (bus : Bus) (data : Nat → Nat) (s : Imx477) (reg len : Nat) :
    Int × Imx477 × Nat :=
  if 4 < len then (-cEINVAL, s, 0)
  else if bus s.bus_ops then
    (0, { s with bus_ops := s.bus_ops + 1 }, data s.bus_ops % 2 ^ (8 * len))
  else (-eioCode, { s with bus_ops := s.bus_ops + 1 }, 0)

/-- `imx477_write_regs`: write a register program in order, abort at the first
failing write and propagate its error code. -/
def imx477_write_regs (bus : Bus) (s : Imx477) :
    List (Nat × Nat) → Int × Imx477 × List Wire
  | [] => (0, s, [])
  | (addr, v) :: rest =>
    let r := imx477_write_reg bus s addr 1 v
    if r.1 ≠ 0 then r
    else
      let r2 := imx477_write_regs bus r.2.1 rest
      (r2.1, r2.2.1, r.2.2 ++ r2.2.2)

/-- `imx477_set_frame_length`: run the shift loop, persist the shift in the
device state, write the 16-bit frame length, then the 8-bit shift register. -/
def imx477_set_frame_length (bus : Bus) (s : Imx477) (val : Nat) :
    Int × Imx477 × List Wire :=
  let p := frame_length_loop 32 val 0
  let s := { s with long_exp_shift := p.2 }
  let r1 := imx477_write_reg bus s IMX477_REG_FRAME_LENGTH IMX477_REG_VALUE_16BIT p.1
  if r1.1 ≠ 0 then r1
  else
    let r2 := imx477_write_reg bus r1.2.1 IMX477_LONG_EXP_SHIFT_REG
        IMX477_REG_VALUE_08BIT p.2
    (r2.1, r2.2.1, r1.2.2 ++ r2.2.2)

/-- Modelled from the spec: `__v4l2_ctrl_modify_range` (V4L2 control
framework, in this kernel tree but not under src/) updates a control's bounds,
step and default, and clamps the current value into the new range ("exposure
default/current clamped", spec 4.4). -/
def v4l2_ctrl_modify_range (c : V4l2Ctrl) (lo hi stp dflt : Nat) : V4l2Ctrl :=
  { c with minimum := lo, maximum := hi, step := stp, default_value := dflt,
           val := max lo (min hi c.val) }

/-- `imx477_adjust_exposure_range`: new exposure maximum is
`cur_mode->height + vblank->val - IMX477_EXPOSURE_OFFSET` (C `int` arithmetic;
`height ≥ 1080` in every mode so the subtraction never goes negative), new
default is its `min` with the current exposure value. -/
def imx477_adjust_exposure_range (s : Imx477) : Imx477 :=
  let exposure_max := s.cur_mode.height + s.vblank.val - IMX477_EXPOSURE_OFFSET
  let exposure_def := min exposure_max s.exposure.val
  { s with exposure := (v4l2_ctrl_modify_range s.exposure s.exposure.minimum
      exposure_max s.exposure.step exposure_def) }

/-- Modelled from the spec: runtime-PM get (kernel framework, not under
src/) — takes a usage reference; the first reference resumes the device
(`imx477_resume` → `__imx477_power_on`, which touches no modelled field; its
settle delay is real time, out of scope).  Resume success is assumed: power
failures are outside the claims under proof. -/
def pm_runtime_get_sync (s : Imx477) : Int × Imx477 :=
  (0, { s with pm_usage := s.pm_usage + 1 })

/-- Modelled from the spec: `pm_runtime_put` — drops a usage reference (the
kernel's `atomic_dec_and_test`, whose count goes negative when puts are
unbalanced).  The idle request it queues — which for this driver runs
`imx477_suspend` → `__imx477_power_off` once the count reaches zero — is
asynchronous, so only the synchronous counter decrement is folded into the
step; the power-off transition itself is `__imx477_power_off`. -/
def pm_runtime_put (s : Imx477) : Imx477 :=
  { s with pm_usage := s.pm_usage - 1 }

/-- Modelled from the spec: `pm_runtime_put_noidle` — drops the reference
without queueing idle; synchronously identical to the above. -/
def pm_runtime_put_noidle (s : Imx477) : Imx477 :=
  { s with pm_usage := s.pm_usage - 1 }

/-- The control ids `imx477_set_ctrl` handles. -/
inductive CtrlId
  | ANALOGUE_GAIN | EXPOSURE | DIGITAL_GAIN | TEST_PATTERN
  | TEST_PATTERN_RED | TEST_PATTERN_GREENR | TEST_PATTERN_BLUE
  | TEST_PATTERN_GREENB | HFLIP | VFLIP | VBLANK | HBLANK
deriving DecidableEq, Repr

/-- The `struct v4l2_ctrl` the driver's handler associates with an id. -/
def Imx477.ctrl (s : Imx477) : CtrlId → V4l2Ctrl
  | .ANALOGUE_GAIN => s.anal_a_gain
  | .EXPOSURE => s.exposure
  | .DIGITAL_GAIN => s.digi_gain
  | .TEST_PATTERN => s.test_pattern
  | .TEST_PATTERN_RED => s.tp_red
  | .TEST_PATTERN_GREENR => s.tp_greenr
  | .TEST_PATTERN_BLUE => s.tp_blue
  | .TEST_PATTERN_GREENB => s.tp_greenb
  | .HFLIP => s.hflip
  | .VFLIP => s.vflip
  | .VBLANK => s.vblank
  | .HBLANK => s.hblank

/-- Replace the control a given id denotes. -/
def Imx477.setCtrl (s : Imx477) (id : CtrlId) (c : V4l2Ctrl) : Imx477 :=
  match id with
  | .ANALOGUE_GAIN => { s with anal_a_gain := c }
  | .EXPOSURE => { s with exposure := c }
  | .DIGITAL_GAIN => { s with digi_gain := c }
  | .TEST_PATTERN => { s with test_pattern := c }
  | .TEST_PATTERN_RED => { s with tp_red := c }
  | .TEST_PATTERN_GREENR => { s with tp_greenr := c }
  | .TEST_PATTERN_BLUE => { s with tp_blue := c }
  | .TEST_PATTERN_GREENB => { s with tp_greenb := c }
  | .HFLIP => { s with hflip := c }
  | .VFLIP => { s with vflip := c }
  | .VBLANK => { s with vblank := c }
  | .HBLANK => { s with hblank := c }

/-- `imx477_set_ctrl`: the driver's `s_ctrl` op.  The framework has already
stored the new value in the control before invoking it (`ctrl->val` is read
from the state).  A VBLANK change first adjusts the exposure range; the switch
maps each control to its register write(s); the function then ends with an
UNCONDITIONAL `pm_runtime_put(&client->dev)` (line 1325) whose matching
`pm_runtime_get_if_in_use` is commented out (lines 1263-1264), so every
control write drops one PM usage reference regardless of the result. -/
def imx477_set_ctrl (bus : Bus) (s : Imx477) (id : CtrlId) :
    Int × Imx477 × List Wire :=
  let s := if id = CtrlId.VBLANK then imx477_adjust_exposure_range s else s
  let r : Int × Imx477 × List Wire :=
    match id with
    | .ANALOGUE_GAIN =>
      imx477_write_reg bus s IMX477_REG_ANALOG_GAIN IMX477_REG_VALUE_16BIT
        s.anal_a_gain.val
    | .EXPOSURE =>
      imx477_write_reg bus s IMX477_REG_EXPOSURE IMX477_REG_VALUE_16BIT
        (s.exposure.val >>> s.long_exp_shift)
    | .DIGITAL_GAIN =>
      imx477_write_reg bus s IMX477_REG_DIGITAL_GAIN IMX477_REG_VALUE_16BIT
        s.digi_gain.val
    | .TEST_PATTERN =>
      imx477_write_reg bus s IMX477_REG_TEST_PATTERN IMX477_REG_VALUE_16BIT
        (imx477_test_pattern_val.getD s.test_pattern.val 0)
    | .TEST_PATTERN_RED =>
      imx477_write_reg bus s IMX477_REG_TEST_PATTERN_R IMX477_REG_VALUE_16BIT
        s.tp_red.val
    | .TEST_PATTERN_GREENR =>
      imx477_write_reg bus s IMX477_REG_TEST_PATTERN_GR IMX477_REG_VALUE_16BIT
        s.tp_greenr.val
    | .TEST_PATTERN_BLUE =>
      imx477_write_reg bus s IMX477_REG_TEST_PATTERN_B IMX477_REG_VALUE_16BIT
        s.tp_blue.val
    | .TEST_PATTERN_GREENB =>
      imx477_write_reg bus s IMX477_REG_TEST_PATTERN_GB IMX477_REG_VALUE_16BIT
        s.tp_greenb.val
    | .HFLIP =>
      imx477_write_reg bus s IMX477_REG_ORIENTATION 1
        (s.hflip.val ||| s.vflip.val <<< 1)
    | .VFLIP =>
      imx477_write_reg bus s IMX477_REG_ORIENTATION 1
        (s.hflip.val ||| s.vflip.val <<< 1)
    | .VBLANK =>
      imx477_set_frame_length bus s (s.cur_mode.height + s.vblank.val)
    | .HBLANK =>
      imx477_write_reg bus s IMX477_REG_LINE_LENGTH 2
        (s.cur_mode.width + s.hblank.val)
  (r.1, pm_runtime_put r.2.1, r.2.2)

/-- Modelled from the spec: the V4L2 framework's user-facing set-control path
(in this kernel tree but not under src/): a GRABBED control is rejected with
`-EBUSY` before any change; otherwise the value is clamped to the control's
range, stored (the in-memory model holds the requested state), and the
driver's `s_ctrl` op runs. -/
def v4l2_user_set_ctrl (bus : Bus) (s : Imx477) (id : CtrlId) (newVal : Nat) :
    Int × Imx477 × List Wire :=
  let c := s.ctrl id
  if c.grabbed then (-cEBUSY, s, [])
  else
    let s' := s.setCtrl id { c with val := max c.minimum (min c.maximum newVal) }
    imx477_set_ctrl bus s' id

/- ## Streaming / power state machine -/

/-- Modelled from the spec: `__v4l2_ctrl_handler_setup` replays every
control's current value through the driver's `s_ctrl` op ("replay all control
values", spec 4.5) in handler registration order, skipping the framework's
read-only controls (LINK_FREQ, PIXEL_RATE), aborting on the first error. -/
def ctrl_handler_setup_order : List CtrlId :=
  [.VBLANK, .HBLANK, .EXPOSURE, .ANALOGUE_GAIN, .DIGITAL_GAIN, .HFLIP, .VFLIP,
   .TEST_PATTERN, .TEST_PATTERN_RED, .TEST_PATTERN_GREENR, .TEST_PATTERN_BLUE,
   .TEST_PATTERN_GREENB]

/-- Modelled from the spec: the replay loop of `__v4l2_ctrl_handler_setup`. -/
def v4l2_ctrl_handler_setup_loop (bus : Bus) (s : Imx477) :
    List CtrlId → Int × Imx477 × List Wire
  | [] => (0, s, [])
  | id :: rest =>
    let r := imx477_set_ctrl bus s id
    if r.1 ≠ 0 then r
    else
      let r2 := v4l2_ctrl_handler_setup_loop bus r.2.1 rest
      (r2.1, r2.2.1, r.2.2 ++ r2.2.2)

/-- Modelled from the spec: `__v4l2_ctrl_handler_setup` over this driver's
handler. -/
def v4l2_ctrl_handler_setup (bus : Bus) (s : Imx477) : Int × Imx477 × List Wire :=
  v4l2_ctrl_handler_setup_loop bus s ctrl_handler_setup_order

/-- `__imx477_start_streaming`: when the common registers are not yet written,
write the common program then the chip variant's extra program and set the
flag on success; then the current mode's program, then the control replay,
then the streaming-enable write.  The first failure aborts the sequence with
its error code.  The common-register phase (the body of the
`if (!imx477->common_regs_written)` block) is named separately. -/
def imx477_write_common (bus : Bus) (s : Imx477) : Int × Imx477 × List Wire :=
  let r1 := imx477_write_regs bus s mode_common_regs
  let r2 :=
    if r1.1 = 0 then
      let e := imx477_write_regs bus r1.2.1 imx477_compatible_extra_regs
      (e.1, e.2.1, r1.2.2 ++ e.2.2)
    else r1
  if r2.1 ≠ 0 then r2
  else (0, { r2.2.1 with common_regs_written := true }, r2.2.2)

def __imx477_start_streaming (bus : Bus) (s : Imx477) : Int × Imx477 × List Wire :=
  let common : Int × Imx477 × List Wire :=
    if !s.common_regs_written then imx477_write_common bus s
    else (0, s, [])
  if common.1 ≠ 0 then common
  else
    let rm := imx477_write_regs bus common.2.1 common.2.1.cur_mode.reg_list
    if rm.1 ≠ 0 then (rm.1, rm.2.1, common.2.2 ++ rm.2.2)
    else
      let rc := v4l2_ctrl_handler_setup bus rm.2.1
      if rc.1 ≠ 0 then (rc.1, rc.2.1, common.2.2 ++ rm.2.2 ++ rc.2.2)
      else
        let rs := imx477_write_reg bus rc.2.1 IMX477_REG_MODE_SELECT
            IMX477_REG_VALUE_08BIT IMX477_MODE_STREAMING
        (rs.1, rs.2.1, common.2.2 ++ rm.2.2 ++ rc.2.2 ++ rs.2.2)

/-- `__imx477_stop_streaming`: write the standby value to the mode-select
register; a failure is only logged (best effort), no error propagates. -/
def __imx477_stop_streaming (bus : Bus) (s : Imx477) : Imx477 × List Wire :=
  let r := imx477_write_reg bus s IMX477_REG_MODE_SELECT IMX477_REG_VALUE_08BIT
      IMX477_MODE_STANDBY
  (r.2.1, r.2.2)

/-- `__imx477_power_off`: rails/clock/reset handling is external; the one
modelled effect is the unconditional clearing of `common_regs_written`
("Force reprogramming of the common registers when powered up again"). -/
def __imx477_power_off (s : Imx477) : Imx477 :=
  { s with common_regs_written := false }

/-- `imx477_s_stream`: under the device lock, a call with `enable` equal to
the current streaming state returns 0 at once; enabling takes a PM reference
and runs the start sequence (returning its error and dropping the reference on
failure); disabling stops best-effort and drops the reference.  On a state
change the streaming flag is set and HFLIP/VFLIP are grabbed/released. -/
def imx477_s_stream (bus : Bus) (s : Imx477) (enable : Bool) :
    Int × Imx477 × List Wire :=
  let s := { s with lock_held := true }
  if s.streaming = enable then (0, { s with lock_held := false }, [])
  else if enable then
    let rp := pm_runtime_get_sync s
    if rp.1 < 0 then (rp.1, { pm_runtime_put_noidle rp.2 with lock_held := false }, [])
    else
      let r := __imx477_start_streaming bus rp.2
      if r.1 ≠ 0 then
        (r.1, { pm_runtime_put r.2.1 with lock_held := false }, r.2.2)
      else
        let s2 := r.2.1
        let s3 := { s2 with
                    streaming := true
                    vflip := { s2.vflip with grabbed := true }
                    hflip := { s2.hflip with grabbed := true }
                    lock_held := false }
        (0, s3, r.2.2)
  else
    let rstop := __imx477_stop_streaming bus s
    let s2 := pm_runtime_put rstop.1
    let s3 := { s2 with
                streaming := false
                vflip := { s2.vflip with grabbed := false }
                hflip := { s2.hflip with grabbed := false }
                lock_held := false }
    (0, s3, rstop.2)

/-- `imx477_s_power`: under the lock, toggle the driver's `power_on` flag,
taking or dropping a runtime-PM reference on an actual change. -/
def imx477_s_power (s : Imx477) (onoff : Bool) : Int × Imx477 :=
  let s := { s with lock_held := true }
  if s.power_on = onoff then (0, { s with lock_held := false })
  else if onoff then
    let rp := pm_runtime_get_sync s
    (rp.1, { rp.2 with power_on := true, lock_held := false })
  else
    (0, { pm_runtime_put s with power_on := false, lock_held := false })

/-- The device state right after a successful probe: `cur_mode` is
`supported_modes[0]`, the controls carry the ranges `imx477_init_controls`
creates as reshaped by `imx477_set_framing_limits` (frame length at the
default interval of mode 0 is 3258, hence VBLANK `[218, 8380960]` default 218
and exposure max `3040 + 218 - 22 = 3236`; the four test-pattern colour
controls are all created with default `0x0fff`), streaming off, not powered,
common registers unwritten. -/
def initSt : Imx477 where
  streaming := false
  power_on := false
  common_regs_written := false
  long_exp_shift := 0
  cur_mode := supported_modes.getD 0 ⟨0, 0, 0, 0, ⟨0, 0⟩, ⟨0, 0⟩, []⟩
  exposure := ⟨IMX477_EXPOSURE_MIN, 3236, 1, 0x640, 0x640, false⟩
  anal_a_gain := ⟨0, 978, 1, 0, 0, false⟩
  digi_gain := ⟨0x0100, 0xffff, 1, 0x0100, 0x0100, false⟩
  hblank := ⟨14800, IMX477_LINE_LENGTH_MAX, 1, 14800, 14800, false⟩
  vblank := ⟨218, 8380960, 1, 218, 218, false⟩
  hflip := ⟨0, 1, 1, 0, 0, false⟩
  vflip := ⟨0, 1, 1, 0, 0, false⟩
  test_pattern := ⟨0, 4, 1, 0, 0, false⟩
  tp_red := ⟨0, 0x0fff, 1, 0x0fff, 0x0fff, false⟩
  tp_greenr := ⟨0, 0x0fff, 1, 0x0fff, 0x0fff, false⟩
  tp_blue := ⟨0, 0x0fff, 1, 0x0fff, 0x0fff, false⟩
  tp_greenb := ⟨0, 0x0fff, 1, 0x0fff, 0x0fff, false⟩
  pm_usage := 0
  lock_held := false
  bus_ops := 0

/-- The wire messages a register program produces when every transfer
succeeds: one 1-byte write per entry. -/
def wireOf (regs : List (Nat × Nat)) : List Wire :=
  regs.map (fun p => (p.1, 1, p.2 % 2 ^ 8))

/-- Fields no control-mapper helper ever touches: the streaming flag, the
lock, the grab flags and the current mode.  (The PM usage count is NOT in
this list: `imx477_set_ctrl` ends with an unconditional `pm_runtime_put`.) -/
def FramePreserved (s s' : Imx477) : Prop :=
  s'.streaming = s.streaming ∧
  s'.lock_held = s.lock_held ∧ s'.hflip.grabbed = s.hflip.grabbed ∧
  s'.vflip.grabbed = s.vflip.grabbed ∧ s'.cur_mode = s.cur_mode

/- ## Helper lemmas -/

/-- The shift loop, fully characterised: with enough fuel and
`v ≤ 2^k * IMX477_FRAME_LENGTH_MAX`, the loop returns the shifted value
`v / 2^shift`, the shift grows by at most `k`, and the result respects the
register bound. -/
theorem frame_length_loop_invariant :
    ∀ (fuel k v sh : Nat), k ≤ fuel → v ≤ 2 ^ k * IMX477_FRAME_LENGTH_MAX →
      sh ≤ (frame_length_loop fuel v sh).2 ∧
      (frame_length_loop fuel v sh).2 ≤ sh + k ∧
      (frame_length_loop fuel v sh).1 =
        v / 2 ^ ((frame_length_loop fuel v sh).2 - sh) ∧
      (frame_length_loop fuel v sh).1 ≤ IMX477_FRAME_LENGTH_MAX := by
  intro fuel
  induction fuel with
  | zero =>
    intro k v sh hk hv
    interval_cases k
    simpa [frame_length_loop] using hv
  | succ n ih =>
    intro k v sh hk hv
    by_cases hbig : IMX477_FRAME_LENGTH_MAX < v
    · have hk0 : k ≠ 0 := by
        rintro rfl
        simp [IMX477_FRAME_LENGTH_MAX] at hv hbig
        omega
      obtain ⟨k', rfl⟩ : ∃ k', k = k' + 1 := ⟨k - 1, by omega⟩
      have hv' : v / 2 ≤ 2 ^ k' * IMX477_FRAME_LENGTH_MAX := by
        have : v ≤ 2 * (2 ^ k' * IMX477_FRAME_LENGTH_MAX) := by
          rw [pow_succ] at hv; ring_nf; ring_nf at hv; omega
        omega
      have h := ih k' (v / 2) (sh + 1) (by omega) hv'
      have hloop : frame_length_loop (n + 1) v sh =
          frame_length_loop n (v / 2) (sh + 1) := by
        simp [frame_length_loop, hbig]
      rw [hloop]
      refine ⟨by omega, by omega, ?_, h.2.2.2⟩
      rcases h with ⟨h1, h2, h3, h4⟩
      have hsub : (frame_length_loop n (v / 2) (sh + 1)).2 - sh =
          ((frame_length_loop n (v / 2) (sh + 1)).2 - (sh + 1)) + 1 := by omega
      rw [h3, hsub, pow_succ, Nat.div_div_eq_div_mul, Nat.mul_comm]
    · have hloop : frame_length_loop (n + 1) v sh = (v, sh) := by
        simp [frame_length_loop, hbig]
      rw [hloop]
      simp
      omega

/-- `toInt32` is the identity on the 32-bit signed range. -/
theorem toInt32_of_small (x : Int) (h1 : -(2 ^ 31) ≤ x) (h2 : x < 2 ^ 31) :
    toInt32 x = x := by
  unfold toInt32
  norm_num at h1 h2 ⊢
  omega

/-- For operands below `2^31`, the C `unsigned` subtraction reinterpreted as
`signed int` is the exact integer difference. -/
theorem toInt32_usub32 (a b : Nat) (ha : a < 2 ^ 31) (hb : b < 2 ^ 31) :
    toInt32 (usub32 a b) = (a : Int) - b := by
  unfold toInt32 usub32
  norm_num at ha hb ⊢
  omega

/-- For operands below `2^31`, the kernel `abs()` of the wrapped difference is
the exact absolute difference. -/
theorem kabs32_usub32 (a b : Nat) (ha : a < 2 ^ 31) (hb : b < 2 ^ 31) :
    kabs32 (usub32 a b) = |(a : Int) - b| := by
  unfold kabs32
  rw [toInt32_usub32 a b ha hb]
  rcases abs_cases ((a : Int) - b) with ⟨h1, h2⟩ | ⟨h1, h2⟩
  · rw [if_neg (by omega), h1]
  · rw [if_pos (by omega), h1, toInt32_of_small] <;> norm_num <;> omega

/-- On sub-`2^30` inputs the code's distance equals the spec's Manhattan
distance (no wrap-around can occur). -/
theorem reso_dist_eq_spec (mode : Imx477Mode) (w h : Nat)
    (hmw : mode.width < 2 ^ 30) (hmh : mode.height < 2 ^ 30)
    (hw : w < 2 ^ 30) (hh : h < 2 ^ 30) :
    imx477_get_reso_dist mode w h = specResoDist mode w h := by
  unfold imx477_get_reso_dist specResoDist
  rw [kabs32_usub32 _ _ (by omega) (by omega), kabs32_usub32 _ _ (by omega) (by omega)]
  rw [toInt32_of_small]
  · rcases abs_cases ((mode.width : Int) - w) with ⟨h1, _⟩ | ⟨h1, _⟩ <;>
      rcases abs_cases ((mode.height : Int) - h) with ⟨h3, _⟩ | ⟨h3, _⟩ <;>
      rw [h1, h3] <;> norm_num <;> omega
  · rcases abs_cases ((mode.width : Int) - w) with ⟨h1, _⟩ | ⟨h1, _⟩ <;>
      rcases abs_cases ((mode.height : Int) - h) with ⟨h3, _⟩ | ⟨h3, _⟩ <;>
      rw [h1, h3] <;> norm_num <;> omega

/-- The spec distance is nonnegative. -/
theorem specResoDist_nonneg (mode : Imx477Mode) (w h : Nat) :
    0 ≤ specResoDist mode w h := by
  unfold specResoDist
  positivity

/-- A single register write under the all-success bus. -/
theorem write_reg_busOK (s : Imx477) (reg len val : Nat) (hlen : len ≤ 4) :
    imx477_write_reg busOK s reg len val =
      (0, { s with bus_ops := s.bus_ops + 1 }, [(reg, len, val % 2 ^ (8 * len))]) := by
  have : ¬ 4 < len := by omega
  simp [imx477_write_reg, busOK, this]

/-- A register program under the all-success bus: succeeds, advances the bus
counter by its length, and puts exactly its encoded entries on the wire. -/
theorem write_regs_busOK (regs : List (Nat × Nat)) :
    ∀ s : Imx477, imx477_write_regs busOK s regs =
      (0, { s with bus_ops := s.bus_ops + regs.length }, wireOf regs) := by
  induction regs with
  | nil => intro s; simp [imx477_write_regs, wireOf]
  | cons p rest ih =>
    intro s
    rw [imx477_write_regs, write_reg_busOK s p.1 1 p.2 (by omega)]
    have harith : s.bus_ops + 1 + rest.length = s.bus_ops + (rest.length + 1) := by omega
    simp only [ne_eq, not_true_eq_false, reduceIte, ih, wireOf, List.map_cons,
      List.length_cons, harith, List.singleton_append, mul_one]

theorem framePreserved_refl (s : Imx477) : FramePreserved s s := by
  simp [FramePreserved]

theorem framePreserved_trans {a b c : Imx477}
    (h1 : FramePreserved a b) (h2 : FramePreserved b c) : FramePreserved a c := by
  unfold FramePreserved at h1 h2 ⊢
  exact ⟨h2.1.trans h1.1, h2.2.1.trans h1.2.1, h2.2.2.1.trans h1.2.2.1,
    h2.2.2.2.1.trans h1.2.2.2.1, h2.2.2.2.2.trans h1.2.2.2.2⟩

theorem write_reg_frame (bus : Bus) (s : Imx477) (reg len val : Nat) :
    FramePreserved s (imx477_write_reg bus s reg len val).2.1 := by
  unfold imx477_write_reg
  split_ifs <;> simp [FramePreserved]

theorem write_regs_frame (bus : Bus) (regs : List (Nat × Nat)) :
    ∀ s : Imx477, FramePreserved s (imx477_write_regs bus s regs).2.1 := by
  induction regs with
  | nil => intro s; simp [imx477_write_regs, framePreserved_refl]
  | cons p rest ih =>
    intro s
    rw [imx477_write_regs]
    split_ifs
    · exact write_reg_frame bus s p.1 1 p.2
    · exact framePreserved_trans (write_reg_frame bus s p.1 1 p.2)
        (ih (imx477_write_reg bus s p.1 1 p.2).2.1)

theorem shift_update_frame (s : Imx477) (n : Nat) :
    FramePreserved s { s with long_exp_shift := n } := by
  simp [FramePreserved]

theorem set_frame_length_frame (bus : Bus) (s : Imx477) (v : Nat) :
    FramePreserved s (imx477_set_frame_length bus s v).2.1 := by
  unfold imx477_set_frame_length
  dsimp only
  split_ifs
  · exact framePreserved_trans (shift_update_frame s _) (write_reg_frame bus _ _ _ _)
  · exact framePreserved_trans (shift_update_frame s _)
      (framePreserved_trans (write_reg_frame bus _ _ _ _) (write_reg_frame bus _ _ _ _))

theorem adjust_exposure_range_frame (s : Imx477) :
    FramePreserved s (imx477_adjust_exposure_range s) := by
  simp [imx477_adjust_exposure_range, FramePreserved]

theorem pm_runtime_put_frame (s : Imx477) :
    FramePreserved s (pm_runtime_put s) := by
  simp [pm_runtime_put, FramePreserved]

theorem set_ctrl_frame (bus : Bus) (s : Imx477) (id : CtrlId) :
    FramePreserved s (imx477_set_ctrl bus s id).2.1 := by
  cases id <;>
    simp only [imx477_set_ctrl, reduceCtorEq, reduceIte]
  case VBLANK =>
    exact framePreserved_trans
      (framePreserved_trans (adjust_exposure_range_frame s)
        (set_frame_length_frame bus _ _))
      (pm_runtime_put_frame _)
  all_goals
    exact framePreserved_trans (write_reg_frame bus _ _ _ _) (pm_runtime_put_frame _)

theorem handler_setup_loop_frame (bus : Bus) (ids : List CtrlId) :
    ∀ s : Imx477, FramePreserved s (v4l2_ctrl_handler_setup_loop bus s ids).2.1 := by
  induction ids with
  | nil => intro s; simp [v4l2_ctrl_handler_setup_loop, framePreserved_refl]
  | cons id rest ih =>
    intro s
    rw [v4l2_ctrl_handler_setup_loop]
    split_ifs
    · exact set_ctrl_frame bus s id
    · exact framePreserved_trans (set_ctrl_frame bus s id)
        (ih (imx477_set_ctrl bus s id).2.1)

theorem flag_update_frame (s : Imx477) :
    FramePreserved s { s with common_regs_written := true } := by
  simp [FramePreserved]

theorem write_common_frame (bus : Bus) (s : Imx477) :
    FramePreserved s (imx477_write_common bus s).2.1 := by
  unfold imx477_write_common
  dsimp only
  split_ifs <;>
    repeat'
      first
        | exact framePreserved_refl _
        | exact write_regs_frame bus _ _
        | exact flag_update_frame _
        | refine framePreserved_trans ?_ (write_regs_frame bus _ _)
        | refine framePreserved_trans ?_ (flag_update_frame _)

theorem start_streaming_frame (bus : Bus) (s : Imx477) :
    FramePreserved s (__imx477_start_streaming bus s).2.1 := by
  unfold __imx477_start_streaming v4l2_ctrl_handler_setup
  dsimp only
  split_ifs <;>
    repeat'
      first
        | exact framePreserved_refl _
        | exact write_reg_frame bus _ _ _ _
        | exact write_regs_frame bus _ _
        | exact handler_setup_loop_frame bus _ _
        | exact write_common_frame bus _
        | refine framePreserved_trans ?_ (write_reg_frame bus _ _ _ _)
        | refine framePreserved_trans ?_ (write_regs_frame bus _ _)
        | refine framePreserved_trans ?_ (handler_setup_loop_frame bus _ _)
        | refine framePreserved_trans ?_ (write_common_frame bus _)

/-- Under the all-success bus every control write succeeds. -/
theorem set_ctrl_busOK_ret (s : Imx477) (id : CtrlId) :
    (imx477_set_ctrl busOK s id).1 = 0 := by
  cases id <;>
    simp [imx477_set_ctrl, imx477_set_frame_length, imx477_write_reg, busOK,
      IMX477_REG_VALUE_16BIT, IMX477_REG_VALUE_08BIT]

/-- Under the all-success bus the control replay succeeds. -/
theorem handler_setup_loop_busOK_ret (ids : List CtrlId) :
    ∀ s : Imx477, (v4l2_ctrl_handler_setup_loop busOK s ids).1 = 0 := by
  induction ids with
  | nil => intro s; simp [v4l2_ctrl_handler_setup_loop]
  | cons id rest ih =>
    intro s
    rw [v4l2_ctrl_handler_setup_loop]
    simp [set_ctrl_busOK_ret, ih]

/-- Specialised success form of a 1-byte write. -/
theorem write_reg_busOK_1 (s : Imx477) (reg v : Nat) :
    imx477_write_reg busOK s reg 1 v =
      (0, { s with bus_ops := s.bus_ops + 1 }, [(reg, 1, v % 2 ^ 8)]) := by
  simp [imx477_write_reg, busOK]

/-- Specialised success form of a 2-byte write. -/
theorem write_reg_busOK_2 (s : Imx477) (reg v : Nat) :
    imx477_write_reg busOK s reg 2 v =
      (0, { s with bus_ops := s.bus_ops + 1 }, [(reg, 2, v % 2 ^ 16)]) := by
  simp [imx477_write_reg, busOK]

/-- Register programs always succeed on the all-success bus. -/
theorem write_regs_busOK_ret (regs : List (Nat × Nat)) (s : Imx477) :
    (imx477_write_regs busOK s regs).1 = 0 := by
  simp [write_regs_busOK]

/-- Trace of a register program on the all-success bus. -/
theorem write_regs_busOK_trace (regs : List (Nat × Nat)) (s : Imx477) :
    (imx477_write_regs busOK s regs).2.2 = wireOf regs := by
  simp [write_regs_busOK]

/-- No register-level helper touches `common_regs_written`. -/
theorem write_reg_flag (bus : Bus) (s : Imx477) (reg len val : Nat) :
    (imx477_write_reg bus s reg len val).2.1.common_regs_written =
      s.common_regs_written := by
  unfold imx477_write_reg
  split_ifs <;> rfl

theorem write_regs_flag (bus : Bus) (regs : List (Nat × Nat)) :
    ∀ s : Imx477, (imx477_write_regs bus s regs).2.1.common_regs_written =
      s.common_regs_written := by
  induction regs with
  | nil => intro s; simp [imx477_write_regs]
  | cons p rest ih =>
    intro s
    rw [imx477_write_regs]
    split_ifs
    · exact write_reg_flag bus s p.1 1 p.2
    · exact (ih _).trans (write_reg_flag bus s p.1 1 p.2)

theorem set_frame_length_flag (bus : Bus) (s : Imx477) (v : Nat) :
    (imx477_set_frame_length bus s v).2.1.common_regs_written =
      s.common_regs_written := by
  unfold imx477_set_frame_length
  dsimp only
  split_ifs <;> simp [write_reg_flag]

theorem set_ctrl_flag (bus : Bus) (s : Imx477) (id : CtrlId) :
    (imx477_set_ctrl bus s id).2.1.common_regs_written =
      s.common_regs_written := by
  cases id <;>
    simp [imx477_set_ctrl, write_reg_flag, set_frame_length_flag,
      imx477_adjust_exposure_range, v4l2_ctrl_modify_range, pm_runtime_put]

theorem handler_setup_loop_flag (bus : Bus) (ids : List CtrlId) :
    ∀ s : Imx477, (v4l2_ctrl_handler_setup_loop bus s ids).2.1.common_regs_written =
      s.common_regs_written := by
  induction ids with
  | nil => intro s; simp [v4l2_ctrl_handler_setup_loop]
  | cons id rest ih =>
    intro s
    rw [v4l2_ctrl_handler_setup_loop]
    split_ifs
    · exact set_ctrl_flag bus s id
    · exact (ih _).trans (set_ctrl_flag bus s id)

/-- Projection of frame preservation: the current mode survives the
common-register phase. -/
theorem write_common_mode (bus : Bus) (s : Imx477) :
    (imx477_write_common bus s).2.1.cur_mode = s.cur_mode :=
  (write_common_frame bus s).2.2.2.2

/-- The common-register phase succeeds on the all-success bus. -/
theorem write_common_busOK_ret (s : Imx477) :
    (imx477_write_common busOK s).1 = 0 := by
  unfold imx477_write_common
  dsimp only
  simp [write_regs_busOK_ret]

/-- The common-register phase sets the flag on the all-success bus. -/
theorem write_common_busOK_flag (s : Imx477) :
    (imx477_write_common busOK s).2.1.common_regs_written = true := by
  unfold imx477_write_common
  dsimp only
  simp [write_regs_busOK_ret]

/-- The common-register phase puts exactly the common program on the wire
(this chip variant has no extra registers). -/
theorem write_common_busOK_trace (s : Imx477) :
    (imx477_write_common busOK s).2.2 = wireOf mode_common_regs := by
  unfold imx477_write_common
  dsimp only
  simp [write_regs_busOK_ret, write_regs_busOK_trace, imx477_compatible_extra_regs, wireOf]

set_option maxHeartbeats 2000000 in
/-- Under the all-success bus the start sequence succeeds, leaves the
common-register flag set, and its wire trace starts with the common program
exactly when the flag was clear, followed by the mode program, the control
replay, and the streaming-enable write. -/
theorem start_streaming_busOK (s : Imx477) :
    (__imx477_start_streaming busOK s).1 = 0 ∧
    (__imx477_start_streaming busOK s).2.1.common_regs_written = true ∧
    (s.common_regs_written = false →
      ∃ replay, (__imx477_start_streaming busOK s).2.2 =
        wireOf mode_common_regs ++ wireOf s.cur_mode.reg_list ++ replay ++
          [(IMX477_REG_MODE_SELECT, 1, IMX477_MODE_STREAMING)]) ∧
    (s.common_regs_written = true →
      ∃ replay, (__imx477_start_streaming busOK s).2.2 =
        wireOf s.cur_mode.reg_list ++ replay ++
          [(IMX477_REG_MODE_SELECT, 1, IMX477_MODE_STREAMING)]) := by
  unfold __imx477_start_streaming v4l2_ctrl_handler_setup
  dsimp only
  cases hc : s.common_regs_written
  · simp only [hc, Bool.not_false, reduceIte, ne_eq, write_common_busOK_ret,
      write_common_busOK_flag, write_common_busOK_trace, write_common_mode,
      write_regs_busOK_ret, not_true_eq_false, not_false_eq_true,
      handler_setup_loop_busOK_ret, IMX477_REG_VALUE_08BIT, write_reg_busOK_1,
      write_regs_busOK_trace, handler_setup_loop_flag, write_regs_flag,
      IMX477_MODE_STREAMING, Bool.false_eq_true]
    refine ⟨?_, ?_, ?_, ?_⟩
    · simp
    · simp [handler_setup_loop_flag, write_regs_flag, write_common_busOK_flag]
    · intro
      exact ⟨_, by simp <;> rfl⟩
    · simp
  · simp only [hc, Bool.not_true, Bool.false_eq_true, reduceIte, ne_eq,
      write_regs_busOK_ret, not_true_eq_false, not_false_eq_true,
      handler_setup_loop_busOK_ret, IMX477_REG_VALUE_08BIT, write_reg_busOK_1,
      write_regs_busOK_trace, handler_setup_loop_flag, write_regs_flag,
      IMX477_MODE_STREAMING, List.nil_append, Bool.true_eq_false]
    refine ⟨?_, ?_, ?_, ?_⟩
    · simp
    · simp [handler_setup_loop_flag, write_regs_flag, hc]
    · simp
    · intro
      exact ⟨_, by simp <;> rfl⟩

/- ## Claim theorems -/

/-- **C3 (counterexample)**: at mode 0 and the representable interval
`100/227790` the divisor `227790 * 18856 = 4295208240` exceeds `2^32`;
`do_div` truncates it to `240944`, so the code returns the cap `0xffdc`
while the claimed unbounded-division formula yields the height `3040`. -/
theorem claim_C3_counterexample :
    imx477_get_frame_length supported_mode_4056x3040 ⟨100, 227790⟩ =
      IMX477_FRAME_LENGTH_MAX ∧
    min IMX477_FRAME_LENGTH_MAX
      (max supported_mode_4056x3040.height
        (100 * IMX477_PIXEL_RATE /
          (227790 * supported_mode_4056x3040.line_length_pix))) =
      supported_mode_4056x3040.height ∧
    imx477_get_frame_length supported_mode_4056x3040 ⟨100, 227790⟩ ≠
      min IMX477_FRAME_LENGTH_MAX
        (max supported_mode_4056x3040.height
          (100 * IMX477_PIXEL_RATE /
            (227790 * supported_mode_4056x3040.line_length_pix))) := by
  refine ⟨by decide, by decide, by decide⟩

/-- **C3 (amended)**: for every catalog mode and every frame interval whose
divisor `denominator * line_length_pix` fits in 32 bits (so `do_div` does not
truncate it), `imx477_get_frame_length` returns the truncating integer
division `numerator * pixel_rate / (denominator * line_length_pix)` clamped
into `[mode.height, IMX477_FRAME_LENGTH_MAX]` (an unclamped value above the
maximum is capped, never an error); at each mode's `max_fps` interval the
result lies within those bounds. -/
theorem claim_C3_compute_frame_length :
    (∀ mode ∈ supported_modes, ∀ tpf : V4l2Fract,
      tpf.denominator * mode.line_length_pix < 2 ^ 32 →
      imx477_get_frame_length mode tpf =
        min IMX477_FRAME_LENGTH_MAX
          (max mode.height
            (tpf.numerator * IMX477_PIXEL_RATE /
              (tpf.denominator * mode.line_length_pix)))) ∧
    (∀ mode ∈ supported_modes,
      mode.height ≤ imx477_get_frame_length mode mode.max_fps ∧
      imx477_get_frame_length mode mode.max_fps ≤ IMX477_FRAME_LENGTH_MAX) := by
  constructor
  · intro mode hm tpf hdiv
    have hh : mode.height ≤ IMX477_FRAME_LENGTH_MAX := by
      simp only [supported_modes, List.mem_cons, List.not_mem_nil, or_false] at hm
      rcases hm with h | h | h <;> subst h <;>
        simp [IMX477_FRAME_LENGTH_MAX, supported_mode_4056x3040,
          supported_mode_3840x2160, supported_mode_1920x1080]
    unfold imx477_get_frame_length
    dsimp only
    rw [Nat.mod_eq_of_lt hdiv]
    generalize tpf.numerator * IMX477_PIXEL_RATE /
        (tpf.denominator * mode.line_length_pix) = fl
    unfold IMX477_FRAME_LENGTH_MAX at hh ⊢
    split_ifs <;> omega
  · intro mode hm
    simp only [supported_modes, List.mem_cons, List.not_mem_nil, or_false] at hm
    rcases hm with h | h | h <;> subst h <;> constructor <;> decide

/-- Witness for the amended C3 at the full-resolution mode and its own
(32-bit-safe) intervals. -/
theorem claim_C3_witness :
    1000 * (supported_modes.getD 0 defaultMode).line_length_pix < 2 ^ 32 ∧
    imx477_get_frame_length (supported_modes.getD 0 defaultMode) ⟨100, 1000⟩ =
      min IMX477_FRAME_LENGTH_MAX
        (max (supported_modes.getD 0 defaultMode).height
          (100 * IMX477_PIXEL_RATE /
            (1000 * (supported_modes.getD 0 defaultMode).line_length_pix))) ∧
    (supported_modes.getD 0 defaultMode).height ≤
      imx477_get_frame_length (supported_modes.getD 0 defaultMode)
        (supported_modes.getD 0 defaultMode).max_fps := by
  refine ⟨by decide,
    claim_C3_compute_frame_length.1 _ ?_ ⟨100, 1000⟩ (by decide),
    (claim_C3_compute_frame_length.2 _ ?_).1⟩ <;> decide

/-- Projections of the concrete catalog used while unfolding the best-fit
loop. -/
theorem supported_modes_enum_expand :
    supported_modes.enum =
      [(0, supported_mode_4056x3040), (1, supported_mode_3840x2160),
       (2, supported_mode_1920x1080)] := by rfl

theorem supported_modes_getD_0 :
    supported_modes.getD 0 defaultMode = supported_mode_4056x3040 := rfl

theorem supported_modes_getD_1 :
    supported_modes.getD 1 defaultMode = supported_mode_3840x2160 := rfl

theorem supported_modes_getD_2 :
    supported_modes.getD 2 defaultMode = supported_mode_1920x1080 := rfl

theorem supported_modes_fmt_0 :
    supported_mode_4056x3040.bus_fmt = MEDIA_BUS_FMT_SRGGB10_1X10 := rfl

theorem supported_modes_fmt_1 :
    supported_mode_3840x2160.bus_fmt = MEDIA_BUS_FMT_SRGGB10_1X10 := rfl

theorem supported_modes_fmt_2 :
    supported_mode_1920x1080.bus_fmt = MEDIA_BUS_FMT_SRGGB10_1X10 := rfl

/-- **C5 (counterexample)**: a request whose pixel format matches no catalog
entry does NOT fail: `imx477_find_best_fit` returns the first catalog entry,
a mode of a different pixel format, contradicting the claimed
`UnsupportedFormat` rejection. -/
theorem claim_C5_counterexample :
    (∀ m ∈ supported_modes, m.bus_fmt ≠ 0x1234) ∧
    imx477_find_best_fit 0x1234 100 100 = supported_modes.getD 0 defaultMode ∧
    (imx477_find_best_fit 0x1234 100 100).bus_fmt ≠ 0x1234 := by
  refine ⟨by decide, by decide, by decide⟩

/-- **C5 (amended)**: if the requested pixel format matches no catalog entry,
`imx477_find_best_fit` does not fail — it returns the first catalog entry
(`supported_modes[0]`), whose pixel format differs from the request. -/
theorem claim_C5_no_match_returns_first :
    ∀ code w h : Nat, (∀ m ∈ supported_modes, m.bus_fmt ≠ code) →
      imx477_find_best_fit code w h = supported_modes.getD 0 defaultMode := by
  intro code w h hnone
  have h0 : MEDIA_BUS_FMT_SRGGB10_1X10 ≠ code :=
    hnone (supported_modes.getD 0 defaultMode) (by decide)
  simp only [imx477_find_best_fit, imx477_find_best_fit_idx,
    supported_modes_enum_expand, find_best_fit_loop, supported_modes_fmt_0,
    supported_modes_fmt_1, supported_modes_fmt_2, h0, and_false, reduceIte]

/-- Witness for the amended C5 at a concrete unmatched format. -/
theorem claim_C5_witness :
    (∀ m ∈ supported_modes, m.bus_fmt ≠ 0) ∧
    imx477_find_best_fit 0 5 6 = supported_modes.getD 0 defaultMode :=
  ⟨by decide, claim_C5_no_match_returns_first 0 5 6 (by decide)⟩

/-- **C9 (counterexample)**: an oversized value is NOT rejected before
transport — a 1-byte write of 256 succeeds (return 0), consumes a bus
transfer, and silently puts the truncated byte 0 on the wire, contradicting
the claimed `InvalidArgument` rejection of values wider than the register. -/
theorem claim_C9_counterexample :
    imx477_write_reg busOK initSt IMX477_REG_EXPOSURE 1 256 =
      (0, { initSt with bus_ops := 1 }, [(IMX477_REG_EXPOSURE, 1, 0)]) := by
  decide

/-- **C9 (amended)**: a width above 4 bytes is rejected with `-EINVAL` before
any bus I/O on both the read and the write path (state untouched, nothing on
the wire); an oversized value for a narrower register is not rejected — the
wire carries `val % 2^(8*len)`, i.e. it is silently truncated. -/
theorem claim_C9_width_guard_value_truncation :
    (∀ (bus : Bus) (s : Imx477) (reg len val : Nat), 4 < len →
      imx477_write_reg bus s reg len val = (-cEINVAL, s, [])) ∧
    (∀ (bus : Bus) (data : Nat → Nat) (s : Imx477) (reg len : Nat), 4 < len →
      imx477_read_reg bus data s reg len = (-cEINVAL, s, 0)) ∧
    (∀ (s : Imx477) (reg len val : Nat), len ≤ 4 →
      imx477_write_reg busOK s reg len val =
        (0, { s with bus_ops := s.bus_ops + 1 },
          [(reg, len, val % 2 ^ (8 * len))])) := by
  refine ⟨?_, ?_, ?_⟩
  · intro bus s reg len val hlen
    simp [imx477_write_reg, hlen]
  · intro bus data s reg len hlen
    simp [imx477_read_reg, hlen]
  · intro s reg len val hlen
    exact write_reg_busOK s reg len val hlen

/-- Witness for the amended C9: width 5 rejected on both paths; a 1-byte
write of 0x1ff is truncated to 0xff on the wire. -/
theorem claim_C9_witness :
    imx477_write_reg busOK initSt 2 5 0 = (-cEINVAL, initSt, []) ∧
    imx477_read_reg busOK (fun _ => 0) initSt 2 5 = (-cEINVAL, initSt, 0) ∧
    imx477_write_reg busOK initSt IMX477_REG_EXPOSURE 1 0x1ff =
      (0, { initSt with bus_ops := 1 }, [(IMX477_REG_EXPOSURE, 1, 0xff)]) := by
  refine ⟨claim_C9_width_guard_value_truncation.1 busOK initSt 2 5 0 (by decide),
    claim_C9_width_guard_value_truncation.2.1 busOK (fun _ => 0) initSt 2 5 (by decide),
    ?_⟩
  have h := claim_C9_width_guard_value_truncation.2.2 initSt IMX477_REG_EXPOSURE 1 0x1ff
    (by decide)
  simpa using h

/-- Register writes never change the stored long-exposure shift. -/
theorem write_reg_shift (bus : Bus) (s : Imx477) (reg len val : Nat) :
    (imx477_write_reg bus s reg len val).2.1.long_exp_shift = s.long_exp_shift := by
  unfold imx477_write_reg
  split_ifs <;> rfl

/-- **C1**: for any requested total line count within the published VBLANK
range (`requested ≤ 2^7 * IMX477_FRAME_LENGTH_MAX`), the shift computed by
`imx477_set_frame_length`'s loop satisfies `0 ≤ s ≤ 7` and
`requested >> s ≤ IMX477_FRAME_LENGTH_MAX`; the shift is persisted in the
device state and the two wire writes carry the shifted frame length and the
shift; every subsequent exposure write succeeds, is wire-encoded as
`val >> long_exp_shift`, and leaves the in-memory exposure control (its value
in real scanline units) untouched. -/
theorem claim_C1_long_exposure_shift :
    ∀ (bus : Bus) (s : Imx477) (v : Nat),
      v ≤ 2 ^ IMX477_LONG_EXP_SHIFT_MAX * IMX477_FRAME_LENGTH_MAX →
      (frame_length_loop 32 v 0).2 ≤ IMX477_LONG_EXP_SHIFT_MAX ∧
      v >>> (frame_length_loop 32 v 0).2 ≤ IMX477_FRAME_LENGTH_MAX ∧
      (imx477_set_frame_length bus s v).2.1.long_exp_shift =
        (frame_length_loop 32 v 0).2 ∧
      (imx477_set_frame_length busOK s v).2.2 =
        [(IMX477_REG_FRAME_LENGTH, 2, v >>> (frame_length_loop 32 v 0).2),
         (IMX477_LONG_EXP_SHIFT_REG, 1, (frame_length_loop 32 v 0).2)] ∧
      (∀ s' : Imx477, s'.exposure.val >>> s'.long_exp_shift < 2 ^ 16 →
        (imx477_set_ctrl busOK s' CtrlId.EXPOSURE).1 = 0 ∧
        (imx477_set_ctrl busOK s' CtrlId.EXPOSURE).2.2 =
          [(IMX477_REG_EXPOSURE, 2, s'.exposure.val >>> s'.long_exp_shift)] ∧
        (imx477_set_ctrl busOK s' CtrlId.EXPOSURE).2.1.exposure = s'.exposure) := by
  intro bus s v hv
  have key := frame_length_loop_invariant 32 7 v 0 (by omega)
    (by simpa [IMX477_LONG_EXP_SHIFT_MAX] using hv)
  obtain ⟨k0, k1, k2, k3⟩ := key
  have hsr : v >>> (frame_length_loop 32 v 0).2 = (frame_length_loop 32 v 0).1 := by
    rw [Nat.shiftRight_eq_div_pow, k2]
    simp
  have hk7 : (frame_length_loop 32 v 0).2 ≤ 7 := by omega
  refine ⟨by simpa [IMX477_LONG_EXP_SHIFT_MAX] using hk7, by rw [hsr]; exact k3,
    ?_, ?_, ?_⟩
  · unfold imx477_set_frame_length
    dsimp only
    split_ifs <;> simp [write_reg_shift]
  · unfold imx477_set_frame_length
    dsimp only
    simp only [IMX477_REG_VALUE_16BIT, IMX477_REG_VALUE_08BIT, write_reg_busOK_2,
      write_reg_busOK_1, ne_eq, not_true_eq_false, not_false_eq_true, reduceIte]
    rw [hsr]
    have h1 : (frame_length_loop 32 v 0).1 % 2 ^ 16 = (frame_length_loop 32 v 0).1 :=
      Nat.mod_eq_of_lt (by unfold IMX477_FRAME_LENGTH_MAX at k3; omega)
    have h2 : (frame_length_loop 32 v 0).2 % 2 ^ 8 = (frame_length_loop 32 v 0).2 :=
      Nat.mod_eq_of_lt (by omega)
    simp only [h1, h2]
    rfl
  · intro s' he
    simp only [imx477_set_ctrl, reduceCtorEq, reduceIte, IMX477_REG_VALUE_16BIT,
      write_reg_busOK_2, pm_runtime_put]
    exact ⟨trivial, by rw [Nat.mod_eq_of_lt he], trivial⟩

/-- Witness for C1 at the extreme in-range request `2^7 * 0xffdc` and the
freshly probed device state. -/
theorem claim_C1_witness :
    (frame_length_loop 32 8384000 0).2 ≤ IMX477_LONG_EXP_SHIFT_MAX ∧
    8384000 >>> (frame_length_loop 32 8384000 0).2 ≤ IMX477_FRAME_LENGTH_MAX ∧
    (imx477_set_frame_length busOK initSt 8384000).2.1.long_exp_shift =
      (frame_length_loop 32 8384000 0).2 ∧
    (imx477_set_ctrl busOK initSt CtrlId.EXPOSURE).1 = 0 ∧
    (imx477_set_ctrl busOK initSt CtrlId.EXPOSURE).2.2 =
      [(IMX477_REG_EXPOSURE, 2, initSt.exposure.val >>> initSt.long_exp_shift)] ∧
    (imx477_set_ctrl busOK initSt CtrlId.EXPOSURE).2.1.exposure = initSt.exposure := by
  have h := claim_C1_long_exposure_shift busOK initSt 8384000 (by decide)
  obtain ⟨e1, e2, e3⟩ := h.2.2.2.2 initSt (by decide)
  exact ⟨h.1, h.2.1, h.2.2.1, e1, e2, e3⟩

/-- **C2 (counterexample)**: at the format-matching request
`(SRGGB10, 0xFFFFFF9C, 1080)` the returned mode does not minimise the spec's
Manhattan distance: catalog entry 1 is strictly closer than the mode the code
returns (the C distance is computed with 32-bit-wrapping subtraction, which
treats the huge `u32` width as a small negative number). -/
theorem claim_C2_counterexample :
    (supported_modes.getD 1 defaultMode).bus_fmt = MEDIA_BUS_FMT_SRGGB10_1X10 ∧
    (imx477_find_best_fit MEDIA_BUS_FMT_SRGGB10_1X10 4294967196 1080).bus_fmt =
      MEDIA_BUS_FMT_SRGGB10_1X10 ∧
    specResoDist (supported_modes.getD 1 defaultMode) 4294967196 1080 <
      specResoDist (imx477_find_best_fit MEDIA_BUS_FMT_SRGGB10_1X10 4294967196 1080)
        4294967196 1080 := by
  refine ⟨by decide, by decide, by decide⟩

/-- **C2 (amended)**: for requests with 16-bit width and height (so that the
C arithmetic cannot wrap) whose pixel format matches at least one catalog
entry, `imx477_find_best_fit` returns the catalog entry among those with the
requested format that minimises the Manhattan distance, ties resolved to the
lowest index; requesting exactly a catalog mode's format and resolution
returns that mode. -/
theorem claim_C2_best_fit :
    (∀ code w h : Nat, w ≤ 0xffff → h ≤ 0xffff →
      (∃ m ∈ supported_modes, m.bus_fmt = code) →
      ∃ i : Nat, i < 3 ∧
        imx477_find_best_fit code w h = supported_modes.getD i defaultMode ∧
        (supported_modes.getD i defaultMode).bus_fmt = code ∧
        ∀ j : Nat, j < 3 → (supported_modes.getD j defaultMode).bus_fmt = code →
          specResoDist (supported_modes.getD i defaultMode) w h ≤
            specResoDist (supported_modes.getD j defaultMode) w h ∧
          (specResoDist (supported_modes.getD j defaultMode) w h =
            specResoDist (supported_modes.getD i defaultMode) w h → i ≤ j)) ∧
    (∀ m ∈ supported_modes, imx477_find_best_fit m.bus_fmt m.width m.height = m) := by
  constructor
  · intro code w h hw hh hex
    have hcode : code = MEDIA_BUS_FMT_SRGGB10_1X10 := by
      obtain ⟨m, hm, hfmt⟩ := hex
      simp only [supported_modes, List.mem_cons, List.not_mem_nil, or_false] at hm
      rcases hm with rfl | rfl | rfl <;> exact hfmt.symm
    subst hcode
    set D0 := specResoDist (supported_modes.getD 0 defaultMode) w h with hD0
    set D1 := specResoDist (supported_modes.getD 1 defaultMode) w h with hD1
    set D2 := specResoDist (supported_modes.getD 2 defaultMode) w h with hD2
    have e0 : imx477_get_reso_dist supported_mode_4056x3040 w h = D0 := by
      rw [hD0]
      exact reso_dist_eq_spec _ w h (by decide) (by decide) (by omega) (by omega)
    have e1 : imx477_get_reso_dist supported_mode_3840x2160 w h = D1 := by
      rw [hD1]
      exact reso_dist_eq_spec _ w h (by decide) (by decide) (by omega) (by omega)
    have e2 : imx477_get_reso_dist supported_mode_1920x1080 w h = D2 := by
      rw [hD2]
      exact reso_dist_eq_spec _ w h (by decide) (by decide) (by omega) (by omega)
    have g0 : (0 : Int) ≤ D0 := by rw [hD0]; exact specResoDist_nonneg _ _ _
    have g1 : (0 : Int) ≤ D1 := by rw [hD1]; exact specResoDist_nonneg _ _ _
    have hn0 : ¬(D0 = -1) := by omega
    have hn1 : ¬(D1 = -1) := by omega
    simp only [imx477_find_best_fit, imx477_find_best_fit_idx,
      supported_modes_enum_expand, find_best_fit_loop, supported_modes_fmt_0,
      supported_modes_fmt_1, supported_modes_fmt_2, e0, e1, e2, hn0, hn1,
      false_or, and_true, eq_self_iff_true, or_true, true_or, true_and,
      and_self, reduceIte, if_true]
    rcases lt_or_le D1 D0 with h10 | h10
    · rw [if_pos h10]
      rcases lt_or_le D2 D1 with h21 | h21
      · rw [if_pos h21]
        refine ⟨2, by omega, rfl, rfl, ?_⟩
        intro j hj _
        interval_cases j <;> simp only [← hD0, ← hD1, ← hD2] <;>
          exact ⟨by omega, fun _ => by omega⟩
      · rw [if_neg (by omega)]
        refine ⟨1, by omega, rfl, rfl, ?_⟩
        intro j hj _
        interval_cases j <;> simp only [← hD0, ← hD1, ← hD2] <;>
          exact ⟨by omega, fun _ => by omega⟩
    · rw [if_neg (by omega)]
      rcases lt_or_le D2 D0 with h20 | h20
      · rw [if_pos h20]
        refine ⟨2, by omega, rfl, rfl, ?_⟩
        intro j hj _
        interval_cases j <;> simp only [← hD0, ← hD1, ← hD2] <;>
          exact ⟨by omega, fun _ => by omega⟩
      · rw [if_neg (by omega)]
        refine ⟨0, by omega, rfl, rfl, ?_⟩
        intro j hj _
        interval_cases j <;> simp only [← hD0, ← hD1, ← hD2] <;>
          exact ⟨by omega, fun _ => by omega⟩
  · intro m hm
    simp only [supported_modes, List.mem_cons, List.not_mem_nil, or_false] at hm
    rcases hm with rfl | rfl | rfl <;> decide

/-- Witness for the amended C2 at the spec's own example request
`(SRGGB10, 1920, 1088)` and at exact catalog resolution `1920x1080`. -/
theorem claim_C2_witness :
    (∃ i : Nat, i < 3 ∧
      imx477_find_best_fit MEDIA_BUS_FMT_SRGGB10_1X10 1920 1088 =
        supported_modes.getD i defaultMode ∧
      (supported_modes.getD i defaultMode).bus_fmt = MEDIA_BUS_FMT_SRGGB10_1X10 ∧
      ∀ j : Nat, j < 3 →
        (supported_modes.getD j defaultMode).bus_fmt = MEDIA_BUS_FMT_SRGGB10_1X10 →
        specResoDist (supported_modes.getD i defaultMode) 1920 1088 ≤
          specResoDist (supported_modes.getD j defaultMode) 1920 1088 ∧
        (specResoDist (supported_modes.getD j defaultMode) 1920 1088 =
          specResoDist (supported_modes.getD i defaultMode) 1920 1088 → i ≤ j)) ∧
    imx477_find_best_fit supported_mode_1920x1080.bus_fmt
      supported_mode_1920x1080.width supported_mode_1920x1080.height =
      supported_mode_1920x1080 :=
  ⟨claim_C2_best_fit.1 MEDIA_BUS_FMT_SRGGB10_1X10 1920 1088 (by decide) (by decide)
      ⟨supported_mode_4056x3040, by decide, rfl⟩,
    claim_C2_best_fit.2 supported_mode_1920x1080 (by decide)⟩

/-- **C4**: setting VBLANK to an in-range value `vb` (on a mode whose height
exceeds the 22-line exposure offset, with the exposure minimum below the new
maximum) sets the exposure control's maximum to exactly
`height + vb - 22`, clamps an exposure value above that maximum down to it,
sets the exposure default to `min(new max, current exposure)`, and performs
the VBLANK write itself as a frame-length write for `height + vb` (shifted
frame-length register write plus shift-register write). -/
theorem claim_C4_vblank_adjusts_exposure :
    ∀ (s : Imx477) (vb : Nat),
      s.vblank.grabbed = false →
      s.vblank.minimum ≤ vb → vb ≤ s.vblank.maximum →
      IMX477_EXPOSURE_OFFSET ≤ s.cur_mode.height →
      s.exposure.minimum ≤ s.cur_mode.height + vb - IMX477_EXPOSURE_OFFSET →
      (v4l2_user_set_ctrl busOK s CtrlId.VBLANK vb).2.1.exposure.maximum =
        s.cur_mode.height + vb - IMX477_EXPOSURE_OFFSET ∧
      (s.cur_mode.height + vb - IMX477_EXPOSURE_OFFSET < s.exposure.val →
        (v4l2_user_set_ctrl busOK s CtrlId.VBLANK vb).2.1.exposure.val =
          s.cur_mode.height + vb - IMX477_EXPOSURE_OFFSET) ∧
      (v4l2_user_set_ctrl busOK s CtrlId.VBLANK vb).2.1.exposure.default_value =
        min (s.cur_mode.height + vb - IMX477_EXPOSURE_OFFSET) s.exposure.val ∧
      (v4l2_user_set_ctrl busOK s CtrlId.VBLANK vb).2.2 =
        [(IMX477_REG_FRAME_LENGTH, 2,
            (frame_length_loop 32 (s.cur_mode.height + vb) 0).1 % 2 ^ 16),
         (IMX477_LONG_EXP_SHIFT_REG, 1,
            (frame_length_loop 32 (s.cur_mode.height + vb) 0).2 % 2 ^ 8)] := by
  intro s vb hgrab hlo hhi hoff hmin
  have hclamp : max s.vblank.minimum (min s.vblank.maximum vb) = vb := by omega
  simp only [v4l2_user_set_ctrl, Imx477.ctrl, hgrab, Bool.false_eq_true,
    reduceIte, hclamp, Imx477.setCtrl, imx477_set_ctrl,
    imx477_adjust_exposure_range, v4l2_ctrl_modify_range,
    imx477_set_frame_length, IMX477_REG_VALUE_16BIT, IMX477_REG_VALUE_08BIT,
    write_reg_busOK_2, write_reg_busOK_1, ne_eq, not_true_eq_false,
    not_false_eq_true, pm_runtime_put]
  refine ⟨trivial, ?_, trivial, rfl⟩
  intro hbig
  omega

/-- Witness for C4: a freshly probed device whose exposure was raised to 4000
gets its exposure clamped to 3318 when VBLANK is set to 300. -/
theorem claim_C4_witness :
    (v4l2_user_set_ctrl busOK
        { initSt with exposure := ⟨4, 3236, 1, 1600, 4000, false⟩ }
        CtrlId.VBLANK 300).2.1.exposure.maximum =
      initSt.cur_mode.height + 300 - IMX477_EXPOSURE_OFFSET ∧
    (initSt.cur_mode.height + 300 - IMX477_EXPOSURE_OFFSET < 4000 →
      (v4l2_user_set_ctrl busOK
          { initSt with exposure := ⟨4, 3236, 1, 1600, 4000, false⟩ }
          CtrlId.VBLANK 300).2.1.exposure.val =
        initSt.cur_mode.height + 300 - IMX477_EXPOSURE_OFFSET) ∧
    (v4l2_user_set_ctrl busOK
        { initSt with exposure := ⟨4, 3236, 1, 1600, 4000, false⟩ }
        CtrlId.VBLANK 300).2.1.exposure.default_value =
      min (initSt.cur_mode.height + 300 - IMX477_EXPOSURE_OFFSET) 4000 ∧
    (v4l2_user_set_ctrl busOK
        { initSt with exposure := ⟨4, 3236, 1, 1600, 4000, false⟩ }
        CtrlId.VBLANK 300).2.2 =
      [(IMX477_REG_FRAME_LENGTH, 2,
          (frame_length_loop 32 (initSt.cur_mode.height + 300) 0).1 % 2 ^ 16),
       (IMX477_LONG_EXP_SHIFT_REG, 1,
          (frame_length_loop 32 (initSt.cur_mode.height + 300) 0).2 % 2 ^ 8)] :=
  claim_C4_vblank_adjusts_exposure
    { initSt with exposure := ⟨4, 3236, 1, 1600, 4000, false⟩ } 300
    (by decide) (by decide) (by decide) (by decide) (by decide)

/-- **C6**: `imx477_s_stream` is a no-op returning success when asked for the
state it is already in (start while streaming, stop while not streaming), so
two consecutive start calls write the common and mode register programs
exactly once — the first call's trace is the full program and the second
call's trace is empty, its state unchanged. -/
theorem claim_C6_s_stream_idempotent :
    (∀ (bus : Bus) (s : Imx477), s.streaming = true → s.lock_held = false →
      imx477_s_stream bus s true = (0, s, [])) ∧
    (∀ (bus : Bus) (s : Imx477), s.streaming = false → s.lock_held = false →
      imx477_s_stream bus s false = (0, s, [])) ∧
    (∀ s : Imx477, s.streaming = false → s.lock_held = false →
      s.common_regs_written = false →
      (imx477_s_stream busOK s true).1 = 0 ∧
      (imx477_s_stream busOK s true).2.1.streaming = true ∧
      (∃ replay, (imx477_s_stream busOK s true).2.2 =
        wireOf mode_common_regs ++ wireOf s.cur_mode.reg_list ++ replay ++
          [(IMX477_REG_MODE_SELECT, 1, IMX477_MODE_STREAMING)]) ∧
      imx477_s_stream busOK (imx477_s_stream busOK s true).2.1 true =
        (0, (imx477_s_stream busOK s true).2.1, [])) := by
  refine ⟨?_, ?_, ?_⟩
  · intro bus s hs hl
    unfold imx477_s_stream
    dsimp only
    rw [if_pos hs, ← hl]
  · intro bus s hs hl
    unfold imx477_s_stream
    dsimp only
    rw [if_pos hs, ← hl]
  · intro s hs hl hc
    have hstart := start_streaming_busOK
      { s with lock_held := true, pm_usage := s.pm_usage + 1 }
    unfold imx477_s_stream pm_runtime_get_sync
    dsimp only
    rw [if_neg (by simp [hs])]
    simp only [show ¬((0 : Int) < 0) from by omega, reduceIte, hstart.1, ne_eq,
      not_true_eq_false, not_false_eq_true, if_false, if_true]
    exact ⟨trivial, trivial, hstart.2.2.1 hc, trivial⟩

/-- Witness for C6 on the freshly probed device (and a streaming copy). -/
theorem claim_C6_witness :
    imx477_s_stream busOK { initSt with streaming := true } true =
      (0, { initSt with streaming := true }, []) ∧
    imx477_s_stream busOK initSt false = (0, initSt, []) ∧
    (imx477_s_stream busOK initSt true).1 = 0 ∧
    (imx477_s_stream busOK initSt true).2.1.streaming = true ∧
    (∃ replay, (imx477_s_stream busOK initSt true).2.2 =
      wireOf mode_common_regs ++ wireOf initSt.cur_mode.reg_list ++ replay ++
        [(IMX477_REG_MODE_SELECT, 1, IMX477_MODE_STREAMING)]) ∧
    imx477_s_stream busOK (imx477_s_stream busOK initSt true).2.1 true =
      (0, (imx477_s_stream busOK initSt true).2.1, []) := by
  obtain ⟨h1, h2, h3, h4⟩ :=
    claim_C6_s_stream_idempotent.2.2 initSt rfl rfl rfl
  exact ⟨claim_C6_s_stream_idempotent.1 busOK _ rfl rfl,
    claim_C6_s_stream_idempotent.2.1 busOK initSt rfl rfl, h1, h2, h3, h4⟩

/-- A plain register write never touches the PM usage count (only the
trailing put of `imx477_set_ctrl` does). -/
theorem write_reg_pm (bus : Bus) (s : Imx477) (reg len val : Nat) :
    (imx477_write_reg bus s reg len val).2.1.pm_usage = s.pm_usage := by
  unfold imx477_write_reg
  split_ifs <;> rfl

theorem write_reg_mode (bus : Bus) (s : Imx477) (reg len val : Nat) :
    (imx477_write_reg bus s reg len val).2.1.cur_mode = s.cur_mode :=
  (write_reg_frame bus s reg len val).2.2.2.2

/-- **C7**: `__imx477_power_off` clears `common_regs_written` unconditionally
and changes nothing else; the start sequence writes the common program exactly
when the flag is clear and sets the flag on success; a stop on a device that
stays powered (PM usage at least 2) preserves the flag, the current mode, and
releases the lock; consequently stop followed by start on a still-powered,
already-common-programmed device re-writes only the mode program (plus the
control replay and mode-select), skipping the common program. -/
theorem claim_C7_common_regs_lifecycle :
    (∀ s : Imx477, __imx477_power_off s = { s with common_regs_written := false }) ∧
    (∀ s : Imx477, s.common_regs_written = false →
      ∃ replay, (__imx477_start_streaming busOK s).2.2 =
        wireOf mode_common_regs ++ wireOf s.cur_mode.reg_list ++ replay ++
          [(IMX477_REG_MODE_SELECT, 1, IMX477_MODE_STREAMING)]) ∧
    (∀ s : Imx477, s.common_regs_written = true →
      ∃ replay, (__imx477_start_streaming busOK s).2.2 =
        wireOf s.cur_mode.reg_list ++ replay ++
          [(IMX477_REG_MODE_SELECT, 1, IMX477_MODE_STREAMING)]) ∧
    (∀ s : Imx477, (__imx477_start_streaming busOK s).2.1.common_regs_written = true) ∧
    (∀ (bus : Bus) (s : Imx477), s.streaming = true → 2 ≤ s.pm_usage →
      (imx477_s_stream bus s false).2.1.common_regs_written =
        s.common_regs_written ∧
      (imx477_s_stream bus s false).2.1.streaming = false ∧
      (imx477_s_stream bus s false).2.1.lock_held = false ∧
      (imx477_s_stream bus s false).2.1.cur_mode = s.cur_mode) ∧
    (∀ s : Imx477, s.streaming = true → s.common_regs_written = true →
      2 ≤ s.pm_usage →
      (imx477_s_stream busOK s false).2.1.common_regs_written = true ∧
      (imx477_s_stream busOK s false).2.1.cur_mode = s.cur_mode ∧
      ∃ replay,
        (imx477_s_stream busOK (imx477_s_stream busOK s false).2.1 true).2.2 =
          wireOf (imx477_s_stream busOK s false).2.1.cur_mode.reg_list ++
            replay ++ [(IMX477_REG_MODE_SELECT, 1, IMX477_MODE_STREAMING)]) := by
  have hstop : ∀ (bus : Bus) (s : Imx477), s.streaming = true → 2 ≤ s.pm_usage →
      (imx477_s_stream bus s false).2.1.common_regs_written =
        s.common_regs_written ∧
      (imx477_s_stream bus s false).2.1.streaming = false ∧
      (imx477_s_stream bus s false).2.1.lock_held = false ∧
      (imx477_s_stream bus s false).2.1.cur_mode = s.cur_mode := by
    intro bus s hs hpm
    unfold imx477_s_stream __imx477_stop_streaming pm_runtime_put
    dsimp only
    rw [if_neg (by simp [hs])]
    simp only [Bool.false_eq_true, if_false, reduceIte]
    simp [write_reg_flag, write_reg_mode]
  refine ⟨fun s => rfl, fun s => (start_streaming_busOK s).2.2.1,
    fun s => (start_streaming_busOK s).2.2.2, fun s => (start_streaming_busOK s).2.1,
    hstop, ?_⟩
  intro s hs hc hpm
  obtain ⟨f1, f2, f3, f4⟩ := hstop busOK s hs hpm
  refine ⟨f1.trans hc, f4, ?_⟩
  generalize hgen : (imx477_s_stream busOK s false).2.1 = s1 at f1 f2 f3 f4 ⊢
  have hstart := start_streaming_busOK
    { s1 with lock_held := true, pm_usage := s1.pm_usage + 1 }
  unfold imx477_s_stream pm_runtime_get_sync
  dsimp only
  rw [if_neg (by simp [f2])]
  simp only [show ¬((0 : Int) < 0) from by omega, reduceIte, hstart.1, ne_eq,
    not_true_eq_false, not_false_eq_true, if_false, if_true]
  exact hstart.2.2.2 (f1.trans hc)

/-- Witness for C7 on a streaming, common-programmed, doubly-powered device
(and the freshly probed device for the cold-start part). -/
theorem claim_C7_witness :
    __imx477_power_off initSt = { initSt with common_regs_written := false } ∧
    (∃ replay, (__imx477_start_streaming busOK initSt).2.2 =
      wireOf mode_common_regs ++ wireOf initSt.cur_mode.reg_list ++ replay ++
        [(IMX477_REG_MODE_SELECT, 1, IMX477_MODE_STREAMING)]) ∧
    (∃ replay,
      (__imx477_start_streaming busOK
        { initSt with common_regs_written := true }).2.2 =
      wireOf ({ initSt with common_regs_written := true } : Imx477).cur_mode.reg_list
        ++ replay ++ [(IMX477_REG_MODE_SELECT, 1, IMX477_MODE_STREAMING)]) ∧
    (__imx477_start_streaming busOK initSt).2.1.common_regs_written = true ∧
    (imx477_s_stream busOK
        { initSt with streaming := true, common_regs_written := true, pm_usage := 2 }
        false).2.1.common_regs_written = true ∧
    (∃ replay,
      (imx477_s_stream busOK
        (imx477_s_stream busOK
          { initSt with streaming := true, common_regs_written := true, pm_usage := 2 }
          false).2.1 true).2.2 =
      wireOf (imx477_s_stream busOK
        { initSt with streaming := true, common_regs_written := true, pm_usage := 2 }
        false).2.1.cur_mode.reg_list ++ replay ++
        [(IMX477_REG_MODE_SELECT, 1, IMX477_MODE_STREAMING)]) := by
  obtain ⟨w1, w2, w3⟩ := claim_C7_common_regs_lifecycle.2.2.2.2.2
    { initSt with streaming := true, common_regs_written := true, pm_usage := 2 }
    rfl rfl (by decide)
  exact ⟨claim_C7_common_regs_lifecycle.1 initSt,
    claim_C7_common_regs_lifecycle.2.1 initSt rfl,
    claim_C7_common_regs_lifecycle.2.2.1 _ rfl,
    claim_C7_common_regs_lifecycle.2.2.2.1 initSt,
    w1, w3⟩

/-- **C8**: the claim says a failing start sequence leaves the device
PoweredOn — its runtime-PM reference count no lower than before the call.  The
code contradicts that intent: in `imx477_set_ctrl` the matching
`pm_runtime_get_if_in_use` is commented out (arducam-imx477p.c:1263-1264)
while the unconditional `pm_runtime_put` at line 1325 remains, so every
control replayed during a start drops one PM usage reference.  Concretely: on
a powered device (usage count 1), a start whose mode-select write (bus
operation 199) fails after the common program, the mode program and the
12-control replay all succeeded returns the step's error with streaming off
and the lock released — but the PM usage count ends at -11, strictly below
its pre-call value of 1, leaving the device eligible to power off. -/
theorem claim_C8_pm_reference_leak :
    (imx477_s_stream (fun k => decide (k < 199)) { initSt with pm_usage := 1 }
        true).1 = -eioCode ∧
    (imx477_s_stream (fun k => decide (k < 199)) { initSt with pm_usage := 1 }
        true).2.1.streaming = false ∧
    (imx477_s_stream (fun k => decide (k < 199)) { initSt with pm_usage := 1 }
        true).2.1.lock_held = false ∧
    (imx477_s_stream (fun k => decide (k < 199)) { initSt with pm_usage := 1 }
        true).2.1.pm_usage = -11 ∧
    (imx477_s_stream (fun k => decide (k < 199)) { initSt with pm_usage := 1 }
        true).2.1.pm_usage <
      ({ initSt with pm_usage := 1 } : Imx477).pm_usage := by
  exact ⟨by decide, by decide, by decide, by decide, by decide⟩

/-- **C10**: a successful stream start grabs HFLIP and VFLIP; while a flip
control is grabbed, the framework's set-control path rejects any write with
`-EBUSY`, leaving the whole device state (hence both flip values) unchanged
and producing no bus traffic; stopping the stream releases both grabs. -/
theorem claim_C10_flip_grab :
    (∀ s : Imx477, s.streaming = false → s.lock_held = false →
      (imx477_s_stream busOK s true).2.1.hflip.grabbed = true ∧
      (imx477_s_stream busOK s true).2.1.vflip.grabbed = true) ∧
    (∀ (bus : Bus) (s : Imx477) (v : Nat), s.hflip.grabbed = true →
      v4l2_user_set_ctrl bus s CtrlId.HFLIP v = (-cEBUSY, s, [])) ∧
    (∀ (bus : Bus) (s : Imx477) (v : Nat), s.vflip.grabbed = true →
      v4l2_user_set_ctrl bus s CtrlId.VFLIP v = (-cEBUSY, s, [])) ∧
    (∀ (bus : Bus) (s : Imx477), s.streaming = true → s.lock_held = false →
      (imx477_s_stream bus s false).2.1.hflip.grabbed = false ∧
      (imx477_s_stream bus s false).2.1.vflip.grabbed = false) := by
  refine ⟨?_, ?_, ?_, ?_⟩
  · intro s hs hl
    have hstart := start_streaming_busOK
      { s with lock_held := true, pm_usage := s.pm_usage + 1 }
    unfold imx477_s_stream pm_runtime_get_sync
    dsimp only
    rw [if_neg (by simp [hs])]
    simp only [show ¬((0 : Int) < 0) from by omega, reduceIte, hstart.1, ne_eq,
      not_true_eq_false, not_false_eq_true, if_false, if_true]
    exact ⟨trivial, trivial⟩
  · intro bus s v hgrab
    simp [v4l2_user_set_ctrl, Imx477.ctrl, hgrab]
  · intro bus s v hgrab
    simp [v4l2_user_set_ctrl, Imx477.ctrl, hgrab]
  · intro bus s hs hl
    unfold imx477_s_stream
    dsimp only
    rw [if_neg (by simp [hs])]
    simp only [Bool.false_eq_true, if_false, reduceIte]
    exact ⟨trivial, trivial⟩

/-- Witness for C10: start on the probed device grabs the flips; a set on a
grabbed state is rejected with `-EBUSY` and changes nothing; a stop on a
streaming state with grabbed flips releases both. -/
theorem claim_C10_witness :
    ((imx477_s_stream busOK initSt true).2.1.hflip.grabbed = true ∧
     (imx477_s_stream busOK initSt true).2.1.vflip.grabbed = true) ∧
    v4l2_user_set_ctrl busOK
      { initSt with hflip := ⟨0, 1, 1, 0, 0, true⟩ } CtrlId.HFLIP 1 =
      (-cEBUSY, { initSt with hflip := ⟨0, 1, 1, 0, 0, true⟩ }, []) ∧
    v4l2_user_set_ctrl busOK
      { initSt with vflip := ⟨0, 1, 1, 0, 0, true⟩ } CtrlId.VFLIP 1 =
      (-cEBUSY, { initSt with vflip := ⟨0, 1, 1, 0, 0, true⟩ }, []) ∧
    ((imx477_s_stream busOK
        { initSt with streaming := true, pm_usage := 1,
                      hflip := ⟨0, 1, 1, 0, 0, true⟩, vflip := ⟨0, 1, 1, 0, 0, true⟩ }
        false).2.1.hflip.grabbed = false ∧
     (imx477_s_stream busOK
        { initSt with streaming := true, pm_usage := 1,
                      hflip := ⟨0, 1, 1, 0, 0, true⟩, vflip := ⟨0, 1, 1, 0, 0, true⟩ }
        false).2.1.vflip.grabbed = false) :=
  ⟨claim_C10_flip_grab.1 initSt rfl rfl,
    claim_C10_flip_grab.2.1 busOK _ 1 rfl,
    claim_C10_flip_grab.2.2.1 busOK _ 1 rfl,
    claim_C10_flip_grab.2.2.2 busOK _ rfl rfl⟩
